import Mathlib

/-!
Shallow embedding of the gdrive-mcp-server tool-dispatch and
response-normalization layer, together with theorems settling the frozen
claims about its specification.

Source files embedded:
  src/gdrive_mcp_server/test_server.py   (handle_api_error, list_files,
                                          create_sheet, get_folder_metadata,
                                          format_bytes)
  src/gdrive_mcp_server/tools/drive.py   (gdrive_search, gdrive_read_file)
  src/gdrive_mcp_server/tools/sheets.py  (create_expense_sheet,
                                          get_expense_summary)

Conventions of the embedding:
  - Python dict values are modelled by the inductive `PyVal`; Python ints,
    floats and bools-as-numbers are all exact rationals (`Rat`), so no
    floating-point rounding is modelled.  Handler result dicts are
    association lists `Dict := List (String × PyVal)` (every envelope key in
    the source is a string literal); insertion order is preserved, matching
    Python dict semantics.
  - The upstream Google API is an oracle: each handler receives the
    outcome(s) of the upstream calls it performs as explicit arguments
    (`CallResult` for a single call, a `List (CallResult ListResp)` trace
    for a pagination loop, one entry per executed iteration).  Each handler
    also returns the list of upstream calls it issued (`List UpCall`), so
    that "performs no upstream call" is a provable statement.
  - A raised Python exception that a handler catches with
    `except Exception` is modelled by the `CallFail.other msg` outcome
    (carrying `str(e)`); `HttpError` is `CallFail.http`.
  - Strings are Lean `String`s; the single-quote character is written
    `\x27` throughout.
-/

/-- Python values as they appear in handler envelopes and sheet cells.
Python ints, floats and numeric bools are unified into exact `Rat`
(the claims never distinguish `1` from `1.0`). -/
inductive PyVal where
  | str (s : String)
  | num (q : Rat)
  | bool (b : Bool)
  | none
  | list (xs : List PyVal)
  | dict (xs : List (PyVal × PyVal))

/-- A Python dict with string-literal keys (every envelope in the source
builds its dicts from string literals). -/
abbrev Dict := List (String × PyVal)

/-- Python `==` on the values the handlers actually compare (sheet cells,
header names, mime-type strings — all scalars).  Compound values never
reach an equality test in the embedded code paths, so they compare
unequal here. -/
def pyBeq : PyVal → PyVal → Bool
  | .str a, .str b => a == b
  | .num a, .num b => a == b
  | .bool a, .bool b => a == b
  | .none, .none => true
  | _, _ => false

/-- Python truthiness of a value. -/
def pyTruthy : PyVal → Bool
  | .str s => s ≠ ""
  | .num q => q ≠ 0
  | .bool b => b
  | .none => false
  | .list xs => !xs.isEmpty
  | .dict xs => !xs.isEmpty

/-- `d.get(k)` on a Python dict: first (and only) binding of `k`. -/
def dictGet (d : Dict) (k : String) : Option PyVal :=
  match d with
  | [] => Option.none
  | p :: t => if p.1 = k then some p.2 else dictGet t k

/-- `d.get(k, v)`: lookup with a default. -/
def dictGetD (d : Dict) (k : String) (v : PyVal) : PyVal :=
  (dictGet d k).getD v

/-- `d[k] = v` on a Python dict: update the (unique) binding of `k` in
place, keeping its position, or append a new binding at the end. -/
def dictSet (d : Dict) (k : String) (v : PyVal) : Dict :=
  match d with
  | [] => [(k, v)]
  | p :: t => if p.1 = k then (k, v) :: t else p :: dictSet t k v

/-- The single-quote character as a string. -/
def sglq : String := "\x27"

/-- Split a character list at every colon (Python `s.split(':')`). -/
def splitColon : List Char → List (List Char)
  | [] => [[]]
  | c :: cs =>
    if c = ':' then [] :: splitColon cs
    else match splitColon cs with
      | g :: gs => (c :: g) :: gs
      | [] => [[c]]

/-- Python `date_range.split(':')`. -/
def pySplitColon (s : String) : List String :=
  (splitColon s.toList).map (fun l => ⟨l⟩)

/-- Code-point lexicographic `≤`, Python string comparison. -/
def strLe (a b : String) : Bool :=
  let rec go : List Char → List Char → Bool
    | [], _ => true
    | _ :: _, [] => false
    | x :: xs, y :: ys =>
      if x < y then true else if y < x then false else go xs ys
  go a.toList b.toList

/-- `query.replace("'", "\\'")`: escape every single quote with a
backslash. -/
def escapeQuotes (s : String) : String :=
  ⟨s.toList.foldr
    (fun c acc => if c = '\x27' then '\x5c' :: c :: acc else c :: acc) []⟩

/-- Result of attempting `json.loads` on the raw body of an upstream
`HttpError`, as far as `handle_api_error` inspects it. -/
inductive BodyMsg where
  | msg (m : String)   -- parsed JSON with a nested error.message field
  | noMsg              -- parsed JSON without a nested message
  | unparseable        -- json.loads (or decoding) raised
  deriving DecidableEq

/-- An upstream `googleapiclient.errors.HttpError`: HTTP status, reason
phrase, body-parse outcome, and `str(e)` (used by the flat
`f"...: {e}"` error messages). -/
structure HttpErr where
  status : Nat
  reason : String
  body : BodyMsg
  text : String

/-- Failure of one upstream call: an `HttpError`, or any other raised
exception carrying `str(e)`. -/
inductive CallFail where
  | http (e : HttpErr)
  | other (msg : String)

/-- Outcome of one upstream call. -/
abbrev CallResult (α : Type) := Except CallFail α

/-- One page returned by `files().list`: the `files` array (each file a
metadata dict) and the optional `nextPageToken`. -/
structure ListResp where
  files : List Dict
  nextPageToken : Option String

/-- Upstream calls a handler can issue, recorded for instrumentation. -/
inductive UpCall where
  | filesList (q : String) (pageSize : Int) (pageToken : Option String)
  | filesGet (fileId : String)
  | filesCreate
  | exportMedia (fileId : String) (mimeType : String)
  | getMedia (fileId : String)
  | batchUpdate
  | valuesGet (spreadsheetId : String) (range : String)

/-- Process-wide context: whether `drive_service` was initialized
(non-`None`) and the `FOLDER_ID` environment variable. -/
structure DriveState where
  driveInit : Bool
  folderEnv : Option String

/-- `folder_id or FOLDER_ID` followed by `if not target_folder`: Python
`or` takes the first truthy operand; the empty string is falsy. -/
def resolveFolder (arg env : Option String) : Option String :=
  match arg with
  | some s => if s = "" then (match env with
      | some t => if t = "" then Option.none else some t
      | Option.none => Option.none)
    else some s
  | Option.none => match env with
      | some t => if t = "" then Option.none else some t
      | Option.none => Option.none

/-- `test_server.handle_api_error`: classify an upstream `HttpError` into
the structured error descriptor dict. -/
def handle_api_error (e : HttpErr) : Dict :=
  let d : Dict := [("error", .str "API request failed"),
                   ("status_code", .num (e.status : Rat)),
                   ("reason", .str e.reason)]
  let d :=
    if e.status = 403 then
      dictSet (dictSet d "error" (.str "Permission denied"))
        "suggestion" (.str "Check service account permissions and folder access")
    else if e.status = 404 then
      dictSet (dictSet d "error" (.str "Resource not found"))
        "suggestion" (.str "Verify the file/folder ID exists and is accessible")
    else if e.status = 429 then
      dictSet (dictSet d "error" (.str "Rate limit exceeded"))
        "suggestion" (.str "Too many requests, please try again later")
    else if e.status = 400 then
      dictSet (dictSet d "error" (.str "Invalid request"))
        "suggestion" (.str "Check request parameters")
    else d
  match e.body with
  | .msg m => dictSet d "details" (.str m)
  | _ => d

/-- Embed a string-keyed dict as a `PyVal`. -/
def mkDict (d : Dict) : PyVal :=
  .dict (d.map (fun p => ((.str p.1 : PyVal), p.2)))

/-- Intermediate outcome of a block of handler code: a value, an error
envelope already returned from inside (an inner `except HttpError`
handler), or an exception still propagating toward the handler-level
`except Exception`. -/
inductive Outcome (α : Type) where
  | ok (a : α)
  | errDict (d : Dict)
  | raise (msg : String)

/-- The pagination loop shared by `list_files` and `get_folder_metadata`:
call `files().list` with the current `pageToken`, extend the accumulator
with the returned files, and continue while a `nextPageToken` is present.
An `HttpError` returns `handle_api_error` from inside the loop; any other
exception propagates.  The oracle `trace` supplies one outcome per
executed iteration (an exhausted trace is read as a final page, which a
well-formed oracle never produces while a cursor is pending). -/
def walkPages (trace : List (CallResult ListResp)) (q : String)
    (pageSize : Int) (token : Option String) (acc : List Dict) :
    Outcome (List Dict) × List UpCall :=
  match trace with
  | [] => (.ok acc, [])
  | r :: rest =>
    let call := UpCall.filesList q pageSize token
    match r with
    | .error (.http e) => (.errDict (handle_api_error e), [call])
    | .error (.other m) => (.raise m, [call])
    | .ok resp =>
      let acc := acc ++ resp.files
      match resp.nextPageToken with
      | Option.none => (.ok acc, [call])
      | some t =>
        let (res, calls) := walkPages rest q pageSize (some t) acc
        (res, call :: calls)

/-- The query built by `list_files`: parent filter plus an optional
mimeType filter. -/
def listFilesQuery (target : String) (mime_type : Option String) : String :=
  String.intercalate " and "
    ([sglq ++ target ++ sglq ++ " in parents"] ++
      (match mime_type with
       | some mt =>
         if mt ≠ "" then ["mimeType = " ++ sglq ++ mt ++ sglq] else []
       | Option.none => []))

/-- `page_size = min(max(page_size, 1), 1000)`. -/
def clampPageSize (ps : Int) : Int := min (max ps 1) 1000

/-- `test_server.list_files`. -/
def list_files (st : DriveState) (folder_id mime_type : Option String)
    (page_size : Int) (trace : List (CallResult ListResp)) :
    Dict × List UpCall :=
  if !st.driveInit then ([("error", .str "Drive service not initialized")], [])
  else
    match resolveFolder folder_id st.folderEnv with
    | Option.none =>
      ([("error", .str ("No folder ID provided and FOLDER_ID " ++
          "environment variable not set"))], [])
    | some target =>
      match walkPages trace (listFilesQuery target mime_type)
          (clampPageSize page_size) Option.none [] with
      | (.ok all_files, calls) =>
        ([("folder_id", .str target),
          ("count", .num (all_files.length : Rat)),
          ("files", .list (all_files.map mkDict))], calls)
      | (.errDict d, calls) => (d, calls)
      | (.raise m, calls) =>
        ([("error", .str ("Unexpected error: " ++ m))], calls)

/-- Value of a decimal digit string. -/
def digitsToNat (cs : List Char) : Nat :=
  cs.foldl (fun a c => a * 10 + (c.toNat - 48)) 0

/-- Python `str.strip()` whitespace. -/
def pyWhitespace (c : Char) : Bool :=
  c = ' ' || c = '\t' || c = '\n' || c = '\r' || c = '\x0b' || c = '\x0c'

/-- Strip surrounding whitespace (what `float(s)`/`int(s)` tolerate). -/
def trimChars (cs : List Char) : List Char :=
  ((cs.dropWhile pyWhitespace).reverse.dropWhile pyWhitespace).reverse

/-- Python `int(s)` on a string: optional surrounding whitespace, an
optional sign, then one or more decimal digits (digit-group underscores
are not modelled).  `Option.none` models the raised `ValueError`. -/
def pyIntOfString (s : String) : Option Int :=
  let cs := trimChars s.toList
  match cs with
  | [] => Option.none
  | c :: rest =>
    let p := if c = '-' then (true, rest)
             else if c = '+' then (false, rest)
             else (false, cs)
    if p.2 ≠ [] ∧ p.2.all (fun d => d.isDigit) then
      some (if p.1 then -(digitsToNat p.2 : Int) else (digitsToNat p.2 : Int))
    else Option.none

/-- Python `int(v)`: exact on numbers (floats truncate toward zero),
string parse per `pyIntOfString`, bools are 0/1, anything else raises
(`Option.none`). -/
def pyIntOfVal : PyVal → Option Int
  | .num q => some (if q < 0 then ⌈q⌉ else ⌊q⌋)
  | .str s => pyIntOfString s
  | .bool b => some (if b then 1 else 0)
  | _ => Option.none

/-- `sum(int(f.get('size', 0)) for f in all_files if f.get('size'))`:
files whose `size` is absent or falsy are skipped; a non-numeric size
raises (`Option.none`), which the handler surfaces as an unexpected
error. -/
def totalSizeOfFiles : List Dict → Int → Option Int
  | [], acc => some acc
  | f :: fs, acc =>
    match dictGet f "size" with
    | Option.none => totalSizeOfFiles fs acc
    | some v =>
      if pyTruthy v then
        match pyIntOfVal v with
        | some n => totalSizeOfFiles fs (acc + n)
        | Option.none => Option.none
      else totalSizeOfFiles fs acc

/-- `mime_type_counts[k] = mime_type_counts.get(k, 0) + 1`, keyed by the
(Python-equality) mime-type value, insertion-ordered. -/
def bumpCount (counts : List (PyVal × Nat)) (k : PyVal) : List (PyVal × Nat) :=
  if counts.any (fun p => pyBeq p.1 k) then
    counts.map (fun p => if pyBeq p.1 k then (p.1, p.2 + 1) else p)
  else counts ++ [(k, 1)]

/-- The `mime_type_counts` tally of `get_folder_metadata`. -/
def mimeTypeCounts (files : List Dict) : List (PyVal × Nat) :=
  files.foldl (fun m f => bumpCount m (dictGetD f "mimeType" (.str "unknown"))) []

/-- Two-digit zero-padded decimal. -/
def padTwo (n : Nat) : String :=
  if n < 10 then "0" ++ toString n else toString n

/-- Round to the nearest integer, ties to even (the rounding of Python
float formatting, taken on exact rationals). -/
def roundHalfEven (q : Rat) : Int :=
  let f := ⌊q⌋
  let r := q - (f : Rat)
  if r < 1/2 then f else if 1/2 < r then f + 1
  else if f % 2 = 0 then f else f + 1

/-- `f"{x:.2f}"` on an exact rational. -/
def ratFmt2 (q : Rat) : String :=
  let n := roundHalfEven (q * 100)
  let sign := if n < 0 then "-" else ""
  let a := n.natAbs
  sign ++ toString (a / 100) ++ "." ++ padTwo (a % 100)

/-- The unit loop of `test_server.format_bytes`. -/
def format_bytes_go : List String → Rat → String
  | [], b => ratFmt2 b ++ " PB"
  | u :: us, b =>
    if b < 1024 then ratFmt2 b ++ " " ++ u else format_bytes_go us (b / 1024)

/-- `test_server.format_bytes` (its float arithmetic taken exactly). -/
def format_bytes (b : Int) : String :=
  format_bytes_go ["B", "KB", "MB", "GB", "TB"] (b : Rat)

/-- `test_server.create_sheet`. -/
def create_sheet (st : DriveState) (name : String) (folder_id : Option String)
    (createResult : CallResult Dict) : Dict × List UpCall :=
  if !st.driveInit then ([("error", .str "Drive service not initialized")], [])
  else
    match resolveFolder folder_id st.folderEnv with
    | Option.none =>
      ([("error", .str ("No folder ID provided and FOLDER_ID " ++
          "environment variable not set"))], [])
    | some _target =>
      match createResult with
      | .error (.http e) => (handle_api_error e, [.filesCreate])
      | .error (.other m) =>
        ([("error", .str ("Unexpected error: " ++ m))], [.filesCreate])
      | .ok sheet =>
        ([("success", .bool true),
          ("sheet", mkDict
            [("id", dictGetD sheet "id" .none),
             ("name", dictGetD sheet "name" .none),
             ("webViewLink", dictGetD sheet "webViewLink" .none),
             ("createdTime", dictGetD sheet "createdTime" .none)])],
         [.filesCreate])

/-- The query built by `get_folder_metadata`: the `include_subfolders`
branch is unimplemented in the source and builds the same string as the
plain branch. -/
def gfmQuery (target : String) (include_subfolders : Bool) : String :=
  if include_subfolders then
    -- "this requires a more complex implementation to traverse the folder
    -- tree; for now, just get direct children"
    sglq ++ target ++ sglq ++ " in parents"
  else
    sglq ++ target ++ sglq ++ " in parents"

/-- `test_server.get_folder_metadata`.  The `include_subfolders` flag is
accepted but both branches of the query construction are the same string,
exactly as in the source. -/
def get_folder_metadata (st : DriveState) (folder_id : Option String)
    (include_subfolders : Bool) (getResult : CallResult Dict)
    (trace : List (CallResult ListResp)) : Dict × List UpCall :=
  if !st.driveInit then ([("error", .str "Drive service not initialized")], [])
  else
    match resolveFolder folder_id st.folderEnv with
    | Option.none =>
      ([("error", .str ("No folder ID provided and FOLDER_ID " ++
          "environment variable not set"))], [])
    | some target =>
      match getResult with
      | .error (.http e) => (handle_api_error e, [.filesGet target])
      | .error (.other m) =>
        ([("error", .str ("Unexpected error: " ++ m))], [.filesGet target])
      | .ok folder_info =>
        match walkPages trace (gfmQuery target include_subfolders) 100
            Option.none [] with
        | (.errDict d, calls) => (d, .filesGet target :: calls)
        | (.raise m, calls) =>
          ([("error", .str ("Unexpected error: " ++ m))],
           .filesGet target :: calls)
        | (.ok all_files, calls) =>
          match totalSizeOfFiles all_files 0 with
          | Option.none =>
            -- int() raised on a non-numeric size (offending literal elided)
            ([("error", .str ("Unexpected error: invalid literal for " ++
                "int() with base 10"))], .filesGet target :: calls)
          | some total_size =>
            ([("folder", mkDict
                [("id", dictGetD folder_info "id" .none),
                 ("name", dictGetD folder_info "name" .none),
                 ("createdTime", dictGetD folder_info "createdTime" .none),
                 ("modifiedTime", dictGetD folder_info "modifiedTime" .none),
                 ("owners", dictGetD folder_info "owners" (.list []))]),
              ("statistics", mkDict
                [("total_files", .num (all_files.length : Rat)),
                 ("total_size_bytes", .num (total_size : Rat)),
                 ("total_size_readable", .str (format_bytes total_size)),
                 ("mime_type_distribution", .dict
                   ((mimeTypeCounts all_files).map
                     (fun p => (p.1, (.num (p.2 : Rat) : PyVal)))))]),
              ("files", .list (all_files.map mkDict))],
             .filesGet target :: calls)

/-- The query built by `gdrive_search`: escape single quotes, wrap in a
`fullText contains` filter, and add the folder restriction when the
`FOLDER_ID` environment value is truthy. -/
def searchQuery (st : DriveState) (query : String) : String :=
  let escaped_query := escapeQuotes query
  let search_query := "fullText contains " ++ sglq ++ escaped_query ++ sglq
  match st.folderEnv with
  | some fid =>
    if fid ≠ "" then sglq ++ fid ++ sglq ++ " in parents and " ++ search_query
    else search_query
  | Option.none => search_query

/-- `tools/drive.gdrive_search`: one `files().list` call with page size 20
and no page token; no pagination loop. -/
def gdrive_search (st : DriveState) (query : String)
    (listResult : CallResult ListResp) : Dict × List UpCall :=
  if !st.driveInit then ([("error", .str "Drive service not initialized")], [])
  else
    let q := searchQuery st query
    let call := UpCall.filesList q 20 Option.none
    match listResult with
    | .error (.http e) =>
      ([("error", .str ("Search failed: " ++ e.text))], [call])
    | .error (.other m) =>
      ([("error", .str ("Unexpected error: " ++ m))], [call])
    | .ok results =>
      let files := results.files
      ([("results", .list (files.map mkDict)),
        ("count", .num (files.length : Rat))], [call])

/-- Strict UTF-8 decoding of a byte sequence to scalar values (Python
`bytes.decode('utf-8')`): rejects overlong forms, surrogates, values
beyond U+10FFFF and truncated sequences. -/
def utf8DecodeCps : List Nat → Option (List Nat)
  | [] => some []
  | b0 :: rest =>
    if b0 < 0x80 then (utf8DecodeCps rest).map (fun cs => b0 :: cs)
    else if b0 < 0xC2 then Option.none
    else if b0 < 0xE0 then
      match rest with
      | b1 :: rest2 =>
        if 0x80 ≤ b1 ∧ b1 < 0xC0 then
          (utf8DecodeCps rest2).map
            (fun cs => ((b0 - 0xC0) * 64 + (b1 - 0x80)) :: cs)
        else Option.none
      | [] => Option.none
    else if b0 < 0xF0 then
      match rest with
      | b1 :: b2 :: rest3 =>
        if (if b0 = 0xE0 then 0xA0 else 0x80) ≤ b1 ∧
            b1 < (if b0 = 0xED then 0xA0 else 0xC0) ∧
            0x80 ≤ b2 ∧ b2 < 0xC0 then
          (utf8DecodeCps rest3).map
            (fun cs => ((b0 - 0xE0) * 4096 + (b1 - 0x80) * 64 + (b2 - 0x80)) :: cs)
        else Option.none
      | _ => Option.none
    else if b0 < 0xF5 then
      match rest with
      | b1 :: b2 :: b3 :: rest4 =>
        if (if b0 = 0xF0 then 0x90 else 0x80) ≤ b1 ∧
            b1 < (if b0 = 0xF4 then 0x90 else 0xC0) ∧
            0x80 ≤ b2 ∧ b2 < 0xC0 ∧ 0x80 ≤ b3 ∧ b3 < 0xC0 then
          (utf8DecodeCps rest4).map
            (fun cs => ((b0 - 0xF0) * 262144 + (b1 - 0x80) * 4096 +
              (b2 - 0x80) * 64 + (b3 - 0x80)) :: cs)
        else Option.none
      | _ => Option.none
    else Option.none

/-- UTF-8 encoding of one scalar value. -/
def utf8EncodeCp (c : Nat) : List Nat :=
  if c < 0x80 then [c]
  else if c < 0x800 then [0xC0 + c / 64, 0x80 + c % 64]
  else if c < 0x10000 then
    [0xE0 + c / 4096, 0x80 + c / 64 % 64, 0x80 + c % 64]
  else
    [0xF0 + c / 262144, 0x80 + c / 4096 % 64, 0x80 + c / 64 % 64, 0x80 + c % 64]

/-- UTF-8 encoding of a scalar-value sequence. -/
def utf8EncodeCps : List Nat → List Nat
  | [] => []
  | c :: cs => utf8EncodeCp c ++ utf8EncodeCps cs

/-- Pack scalar values into a Lean string. -/
def cpsToString (cps : List Nat) : String :=
  ⟨cps.map Char.ofNat⟩

/-- UTF-8 encoding of a string (what writing the returned text content
back to bytes produces). -/
def utf8EncodeString (s : String) : List Nat :=
  utf8EncodeCps (s.data.map Char.toNat)

/-- Code of the character the standard base64 alphabet assigns to a
sextet. -/
def b64CharCode (n : Nat) : Nat :=
  if n < 26 then 65 + n
  else if n < 52 then 97 + (n - 26)
  else if n < 62 then 48 + (n - 52)
  else if n = 62 then 43 else 47

/-- Inverse base64 alphabet on character codes. -/
def b64ValCode (c : Nat) : Option Nat :=
  if 65 ≤ c ∧ c ≤ 90 then some (c - 65)
  else if 97 ≤ c ∧ c ≤ 122 then some (c - 97 + 26)
  else if 48 ≤ c ∧ c ≤ 57 then some (c - 48 + 52)
  else if c = 43 then some 62
  else if c = 47 then some 63
  else Option.none

/-- `base64.b64encode` on a byte sequence, as character codes (61 is the
padding character `=`). -/
def b64EncodeCodes : List Nat → List Nat
  | [] => []
  | [b0] => [b64CharCode (b0 / 4), b64CharCode (b0 % 4 * 16), 61, 61]
  | [b0, b1] => [b64CharCode (b0 / 4), b64CharCode (b0 % 4 * 16 + b1 / 16),
                 b64CharCode (b1 % 16 * 4), 61]
  | b0 :: b1 :: b2 :: rest =>
    b64CharCode (b0 / 4) :: b64CharCode (b0 % 4 * 16 + b1 / 16) ::
    b64CharCode (b1 % 16 * 4 + b2 / 64) :: b64CharCode (b2 % 64) ::
    b64EncodeCodes rest

/-- Standard base64 decoding on character codes. -/
def b64DecodeCodes : List Nat → Option (List Nat)
  | [] => some []
  | c0 :: c1 :: c2 :: c3 :: rest =>
    match b64ValCode c0, b64ValCode c1 with
    | some v0, some v1 =>
      if c2 = 61 ∧ c3 = 61 ∧ rest = [] then
        if v1 % 16 = 0 then some [v0 * 4 + v1 / 16] else Option.none
      else if c3 = 61 ∧ rest = [] then
        match b64ValCode c2 with
        | some v2 =>
          if v2 % 4 = 0 then some [v0 * 4 + v1 / 16, v1 % 16 * 16 + v2 / 4]
          else Option.none
        | Option.none => Option.none
      else
        match b64ValCode c2, b64ValCode c3, b64DecodeCodes rest with
        | some v2, some v3, some bs =>
          some ((v0 * 4 + v1 / 16) :: (v1 % 16 * 16 + v2 / 4) ::
            (v2 % 4 * 64 + v3) :: bs)
        | _, _, _ => Option.none
    | _, _ => Option.none
  | _ => Option.none

/-- Base64 of a byte sequence as a string
(`base64.b64encode(content_bytes).decode('utf-8')`). -/
def b64EncodeString (bs : List Nat) : String :=
  ⟨(b64EncodeCodes bs).map Char.ofNat⟩

/-- Base64 decoding of a string back to bytes. -/
def b64DecodeString (s : String) : Option (List Nat) :=
  b64DecodeCodes (s.data.map Char.toNat)

/-- The export table of `gdrive_read_file`: Workspace-native kinds and
the export kind each is downloaded as. -/
def export_mime_types : List (String × String) :=
  [("application/vnd.google-apps.document", "text/markdown"),
   ("application/vnd.google-apps.spreadsheet", "text/csv"),
   ("application/vnd.google-apps.presentation", "text/plain"),
   ("application/vnd.google-apps.drawing", "image/png")]

/-- `mime_type in export_mime_types` (membership in the table keys). -/
def isExportMime (m : String) : Bool :=
  export_mime_types.any (fun p => p.1 == m)

/-- The text-decoding guard of `gdrive_read_file`:
`mime_type.startswith('text/') or mime_type in ['application/json'] or
mime_type in export_mime_types`. -/
def isTextKind (m : String) : Bool :=
  "text/".toList.isPrefixOf m.toList || m == "application/json" ||
  isExportMime m

/-- `tools/drive.gdrive_read_file`: fetch metadata, download (or export)
the content in chunks — the chunk loop is modelled by the resulting byte
sequence — then return UTF-8 text when the declared kind is text-like and
the bytes decode, base64 otherwise. -/
def gdrive_read_file (st : DriveState) (file_id : String)
    (metaResult : CallResult Dict) (mediaResult : CallResult (List Nat)) :
    Dict × List UpCall :=
  if !st.driveInit then ([("error", .str "Drive service not initialized")], [])
  else
    match metaResult with
    | .error (.http e) =>
      ([("error", .str ("Failed to read file: " ++ e.text))], [.filesGet file_id])
    | .error (.other m) =>
      ([("error", .str ("Unexpected error: " ++ m))], [.filesGet file_id])
    | .ok file_metadata =>
      match dictGetD file_metadata "mimeType" (.str "") with
      | .str mime_type =>
        let file_name := dictGetD file_metadata "name" (.str "Unknown")
        let mediaCall :=
          match export_mime_types.find? (fun p => p.1 == mime_type) with
          | some p => UpCall.exportMedia file_id p.2
          | Option.none => UpCall.getMedia file_id
        let calls := [UpCall.filesGet file_id, mediaCall]
        match mediaResult with
        | .error (.http e) =>
          ([("error", .str ("Failed to read file: " ++ e.text))], calls)
        | .error (.other m) =>
          ([("error", .str ("Unexpected error: " ++ m))], calls)
        | .ok content_bytes =>
          if isTextKind mime_type then
            match utf8DecodeCps content_bytes with
            | some cps =>
              ([("file_id", .str file_id), ("name", file_name),
                ("mime_type", .str mime_type),
                ("content", .str (cpsToString cps)),
                ("encoding", .str "utf-8")], calls)
            | Option.none =>
              ([("file_id", .str file_id), ("name", file_name),
                ("mime_type", .str mime_type),
                ("content", .str (b64EncodeString content_bytes)),
                ("encoding", .str "base64")], calls)
          else
            ([("file_id", .str file_id), ("name", file_name),
              ("mime_type", .str mime_type),
              ("content", .str (b64EncodeString content_bytes)),
              ("encoding", .str "base64")], calls)
      | _ =>
        -- a non-string mimeType makes .startswith raise AttributeError,
        -- caught by the handler-level except (message abridged)
        ([("error", .str "Unexpected error: mimeType is not a string")],
         [.filesGet file_id])

/-- The 10-item default category list of `create_expense_sheet`. -/
def defaultCategories : List String :=
  ["Food & Dining", "Transportation", "Shopping", "Bills & Utilities",
   "Healthcare", "Entertainment", "Travel", "Education", "Personal Care",
   "Other"]

/-- The 7-column default header list of `create_expense_sheet`. -/
def defaultExpenseHeaders : List String :=
  ["Date", "Description", "Category", "Amount", "Payment Method", "Notes",
   "Tags"]

/-- `tools/sheets.create_expense_sheet`: create the spreadsheet file, then
submit one `batchUpdate` holding all setup sub-operations (whose request
payload is not needed by any verified property and is left opaque).  The
source has NO service-initialization guard: with an uninitialized (None)
service, `drive_service.files()` raises AttributeError before any
upstream call, caught by the handler-level `except Exception`. -/
def create_expense_sheet (st : DriveState) (name : String)
    (folder_id : Option String) (categories : Option (List String))
    (initial_headers : Option (List String)) (createResult : CallResult Dict)
    (batchResult : CallResult Dict) : Dict × List UpCall :=
  let categories := categories.getD defaultCategories
  let initial_headers := initial_headers.getD defaultExpenseHeaders
  let _target_folder := resolveFolder folder_id st.folderEnv
  if !st.driveInit then
    ([("error", .str ("Unexpected error: " ++ sglq ++ "NoneType" ++ sglq ++
        " object has no attribute " ++ sglq ++ "files" ++ sglq))], [])
  else
    match createResult with
    | .error (.http e) =>
      ([("error", .str ("Failed to create sheet: " ++ e.text))], [.filesCreate])
    | .error (.other m) =>
      ([("error", .str ("Unexpected error: " ++ m))], [.filesCreate])
    | .ok sheet_file =>
      match dictGet sheet_file "id" with
      | Option.none =>
        -- sheet_file['id'] raises KeyError('id'); str(e) is "'id'"
        ([("error", .str ("Unexpected error: " ++ sglq ++ "id" ++ sglq))],
         [.filesCreate])
      | some spreadsheet_id =>
        match batchResult with
        | .error (.http e) =>
          ([("error", .str ("Failed to create sheet: " ++ e.text))],
           [.filesCreate, .batchUpdate])
        | .error (.other m) =>
          ([("error", .str ("Unexpected error: " ++ m))],
           [.filesCreate, .batchUpdate])
        | .ok _ =>
          ([("success", .bool true),
            ("sheet", mkDict
              [("id", spreadsheet_id),
               ("name", .str name),
               ("webViewLink", dictGetD sheet_file "webViewLink" .none),
               ("headers", .list (initial_headers.map .str)),
               ("categories", .list (categories.map .str)),
               ("setup_complete", .bool true)])],
           [.filesCreate, .batchUpdate])

/-- Exponent-free part of Python `float(s)` plus an optional exponent:
value of sign, integer digits, fraction digits and the remaining
characters (which must form a well-formed exponent or be empty). -/
def applyExp (neg : Bool) (intDs fracDs : List Char) (rest : List Char) :
    Option Rat :=
  let mant : Rat := (digitsToNat intDs : Rat) +
    (digitsToNat fracDs : Rat) / ((10 : Rat) ^ fracDs.length)
  let signed := if neg then -mant else mant
  match rest with
  | [] => some signed
  | e :: erest =>
    if e = 'e' ∨ e = 'E' then
      let p := match erest with
        | c :: r2 => if c = '-' then (true, r2)
                     else if c = '+' then (false, r2) else (false, erest)
        | [] => (false, ([] : List Char))
      if p.2 ≠ [] ∧ p.2.all (fun d => d.isDigit) then
        let ex := digitsToNat p.2
        some (if p.1 then signed / ((10 : Rat) ^ ex)
              else signed * ((10 : Rat) ^ ex))
      else Option.none
    else Option.none

/-- Python `float(s)` on a string (finite decimal literals with optional
sign, fraction and exponent; `inf`/`nan` literals and digit-group
underscores are not modelled).  `Option.none` models the raised
`ValueError`. -/
def pyFloatOfString (s : String) : Option Rat :=
  let cs := trimChars s.toList
  let p0 := match cs with
    | c :: rest => if c = '-' then (true, rest)
                   else if c = '+' then (false, rest) else (false, cs)
    | [] => (false, ([] : List Char))
  let ip := p0.2.span (fun c => c.isDigit)
  match ip.2 with
  | '.' :: rest2 =>
    let fp := rest2.span (fun c => c.isDigit)
    if ip.1 = [] ∧ fp.1 = [] then Option.none
    else applyExp p0.1 ip.1 fp.1 fp.2
  | rest2 =>
    if ip.1 = [] then Option.none
    else applyExp p0.1 ip.1 [] rest2

/-- Python `float(v)` on a cell value: numbers pass through, strings are
parsed, bools are 0/1, anything else raises `TypeError`
(`Option.none`). -/
def pyFloatOfVal : PyVal → Option Rat
  | .num q => some q
  | .str s => pyFloatOfString s
  | .bool b => some (if b then 1 else 0)
  | _ => Option.none

/-- Python `str(v)` as used by the date filter (non-string display forms
abridged; date cells are strings in every embedded code path). -/
def pyStrOfVal : PyVal → String
  | .str s => s
  | .num q => if q.den = 1 then toString q.num
              else toString q.num ++ "/" ++ toString q.den
  | .bool b => if b then "True" else "False"
  | .none => "None"
  | .list _ => "[...]"
  | .dict _ => "\x7b...\x7d"

/-- `round(x, 2)` taken on exact rationals, ties to even. -/
def pyRound2 (q : Rat) : Rat :=
  (roundHalfEven (q * 100) : Rat) / 100

/-- First position of header `name` in the header row, Python
`headers.index(name) if name in headers else d`. -/
def idxOrD (headers : List PyVal) (name : String) (d : Nat) : Nat :=
  match headers.findIdx? (fun c => pyBeq c (.str name)) with
  | some i => i
  | Option.none => d

/-- The running accumulators of `get_expense_summary`. -/
structure SumState where
  total : Rat
  by_category : List (PyVal × Rat × Nat)
  transaction_count : Nat

/-- `by_category[category]` create-or-update: add the amount and bump the
count, insertion-ordered. -/
def bumpCategory (m : List (PyVal × Rat × Nat)) (k : PyVal) (amt : Rat) :
    List (PyVal × Rat × Nat) :=
  if m.any (fun p => pyBeq p.1 k) then
    m.map (fun p => if pyBeq p.1 k then (p.1, p.2.1 + amt, p.2.2 + 1) else p)
  else m ++ [(k, amt, 1)]

/-- One iteration of the `get_expense_summary` row loop.  A row whose
amount cell fails `float()` parsing — or whose date filter raises — is
skipped without touching the accumulators. -/
def expenseStep (date_idx category_idx amount_idx : Nat)
    (date_range : Option String) (st : SumState) (row : List PyVal) :
    SumState :=
  if h : amount_idx < row.length then
    match pyFloatOfVal (row.get ⟨amount_idx, h⟩) with
    | Option.none => st
    | some amount =>
      let category := if hc : category_idx < row.length
        then row.get ⟨category_idx, hc⟩ else .str "Uncategorized"
      let keep : Bool :=
        match date_range with
        | Option.none => true
        | some dr =>
          if dr = "" then true   -- `if date_range and ...`: falsy skip
          else if hd : date_idx < row.length then
            match pySplitColon dr with
            | [start_date, end_date] =>
              let date_str := pyStrOfVal (row.get ⟨date_idx, hd⟩)
              strLe start_date date_str && strLe date_str end_date
            | _ => false   -- tuple unpacking raised ValueError: row skipped
          else true
      if keep then
        ⟨st.total + amount, bumpCategory st.by_category category amount,
         st.transaction_count + 1⟩
      else st
  else st

/-- `tools/sheets.get_expense_summary`: read the full `A:G` range, resolve
the Date/Category/Amount columns by header name with positional
fallbacks 0/2/3, and fold the data rows. -/
def get_expense_summary (spreadsheet_id : String) (date_range : Option String)
    (valuesResult : CallResult (List (List PyVal))) : Dict × List UpCall :=
  let call := UpCall.valuesGet spreadsheet_id "A:G"
  match valuesResult with
  | .error (.http e) =>
    ([("error", .str ("Failed to get summary: " ++ e.text))], [call])
  | .error (.other m) =>
    ([("error", .str ("Unexpected error: " ++ m))], [call])
  | .ok values =>
    if values.length < 2 then
      ([("total", .num 0), ("by_category", .dict []),
        ("transaction_count", .num 0)], [call])
    else
      match values with
      | [] => ([("total", .num 0), ("by_category", .dict []),
                ("transaction_count", .num 0)], [call])
      | headers :: data_rows =>
        let date_idx := idxOrD headers "Date" 0
        let category_idx := idxOrD headers "Category" 2
        let amount_idx := idxOrD headers "Amount" 3
        let fin := data_rows.foldl
          (expenseStep date_idx category_idx amount_idx date_range)
          ⟨0, [], 0⟩
        ([("spreadsheet_id", .str spreadsheet_id),
          ("total", .num (pyRound2 fin.total)),
          ("by_category", .dict (fin.by_category.map
            (fun p => (p.1, mkDict
              [("amount", .num (pyRound2 p.2.1)),
               ("count", .num (p.2.2 : Rat))])))),
          ("transaction_count", .num (fin.transaction_count : Rat)),
          ("date_range", match date_range with
            | some s => (.str s : PyVal)
            | Option.none => .none)], [call])


theorem dictGet_dictSet_ne (d : Dict) (k k' : String) (v : PyVal)
    (h : k' ≠ k) : dictGet (dictSet d k v) k' = dictGet d k' := by
  induction d with
  | nil => simp [dictGet, dictSet, Ne.symm h]
  | cons p t ih =>
    by_cases hp : p.1 = k
    · simp [dictGet, dictSet, hp, Ne.symm h]
    · by_cases hp' : p.1 = k'
      · simp [dictGet, dictSet, hp, hp', h]
      · simp [dictGet, dictSet, hp, hp', ih]

theorem dictGet_dictSet_self (d : Dict) (k : String) (v : PyVal) :
    dictGet (dictSet d k v) k = some v := by
  induction d with
  | nil => simp [dictGet, dictSet]
  | cons p t ih =>
    by_cases hp : p.1 = k
    · simp [dictGet, dictSet, hp]
    · simp [dictGet, dictSet, hp, ih]

/-- The error descriptor never carries keys other than
error/status_code/reason/suggestion/details — in particular no `files` or
`results` records. -/
theorem handle_api_error_no_records (e : HttpErr) (k : String)
    (hk1 : k ≠ "error") (hk2 : k ≠ "status_code") (hk3 : k ≠ "reason")
    (hk4 : k ≠ "suggestion") (hk5 : k ≠ "details") :
    dictGet (handle_api_error e) k = Option.none := by
  unfold handle_api_error
  have base : dictGet [("error", PyVal.str "API request failed"),
      ("status_code", PyVal.num (e.status : Rat)),
      ("reason", PyVal.str e.reason)] k = Option.none := by
    simp [dictGet, Ne.symm hk1, Ne.symm hk2, Ne.symm hk3]
  rcases e.body with m | _ | _ <;> split_ifs <;>
    simp [dictGet_dictSet_ne _ _ _ _ hk5, dictGet_dictSet_ne _ _ _ _ hk4,
      dictGet_dictSet_ne _ _ _ _ hk1, base]

/-- C2: the error classifier maps 403/404/429/400 to their exact error
strings and suggestion texts, and every other status to the generic
"API request failed" descriptor with no suggestion; a body that parsed to
a nested message lands in `details`, otherwise `details` is simply
absent (a parse failure does not propagate: the classifier is a total
function); `status_code` and `reason` are always present. -/
theorem handle_api_error_mapping (e : HttpErr) :
    (e.status = 403 →
      dictGet (handle_api_error e) "error" = some (.str "Permission denied") ∧
      dictGet (handle_api_error e) "suggestion" =
        some (.str "Check service account permissions and folder access")) ∧
    (e.status = 404 →
      dictGet (handle_api_error e) "error" = some (.str "Resource not found") ∧
      dictGet (handle_api_error e) "suggestion" =
        some (.str "Verify the file/folder ID exists and is accessible")) ∧
    (e.status = 429 →
      dictGet (handle_api_error e) "error" = some (.str "Rate limit exceeded") ∧
      dictGet (handle_api_error e) "suggestion" =
        some (.str "Too many requests, please try again later")) ∧
    (e.status = 400 →
      dictGet (handle_api_error e) "error" = some (.str "Invalid request") ∧
      dictGet (handle_api_error e) "suggestion" =
        some (.str "Check request parameters")) ∧
    (e.status ≠ 403 → e.status ≠ 404 → e.status ≠ 429 → e.status ≠ 400 →
      dictGet (handle_api_error e) "error" =
        some (.str "API request failed") ∧
      dictGet (handle_api_error e) "suggestion" = Option.none) ∧
    (∀ m, e.body = .msg m →
      dictGet (handle_api_error e) "details" = some (.str m)) ∧
    (e.body = .noMsg ∨ e.body = .unparseable →
      dictGet (handle_api_error e) "details" = Option.none) ∧
    dictGet (handle_api_error e) "status_code" =
      some (.num (e.status : Rat)) ∧
    dictGet (handle_api_error e) "reason" = some (.str e.reason) := by
  obtain ⟨s, rs, b, tx⟩ := e
  unfold handle_api_error
  rcases b with m | _ | _ <;>
    by_cases h403 : s = 403 <;> by_cases h404 : s = 404 <;>
    by_cases h429 : s = 429 <;> by_cases h400 : s = 400 <;>
    simp_all [dictGet, dictSet]

/-- Witness for C2 at a concrete 403 failure with a parsed body
message. -/
theorem handle_api_error_mapping_witness :
    dictGet (handle_api_error ⟨403, "Forbidden", .msg "quota", "t"⟩)
      "error" = some (.str "Permission denied") ∧
    dictGet (handle_api_error ⟨403, "Forbidden", .msg "quota", "t"⟩)
      "suggestion" =
      some (.str "Check service account permissions and folder access") ∧
    dictGet (handle_api_error ⟨403, "Forbidden", .msg "quota", "t"⟩)
      "details" = some (.str "quota") := by
  have h := handle_api_error_mapping ⟨403, "Forbidden", .msg "quota", "t"⟩
  exact ⟨(h.1 rfl).1, (h.1 rfl).2, h.2.2.2.2.2.1 "quota" rfl⟩

/-- C8: `list_files` with no `folder_id` argument and no configured
default returns the "No folder ID provided ..." error envelope and
issues no upstream call (the result is this envelope for every oracle
trace, with an empty call list). -/
theorem list_files_no_folder (st : DriveState) (mime_type : Option String)
    (page_size : Int) (trace : List (CallResult ListResp))
    (hinit : st.driveInit = true) (henv : st.folderEnv = Option.none) :
    list_files st Option.none mime_type page_size trace =
      ([("error", .str ("No folder ID provided and FOLDER_ID " ++
          "environment variable not set"))], []) := by
  unfold list_files
  rw [hinit, henv]
  exact rfl

/-- Witness for C8. -/
theorem list_files_no_folder_witness :
    list_files ⟨true, Option.none⟩ Option.none Option.none 100
        [.ok ⟨[], Option.none⟩] =
      ([("error", .str ("No folder ID provided and FOLDER_ID " ++
          "environment variable not set"))], []) :=
  list_files_no_folder ⟨true, Option.none⟩ Option.none 100
    [.ok ⟨[], Option.none⟩] rfl rfl

/-- C9: two `get_folder_metadata` invocations identical except for the
`include_subfolders` flag produce the same result envelope and issue the
same upstream calls — the flag is observably a no-op. -/
theorem get_folder_metadata_subfolders_noop (st : DriveState)
    (folder_id : Option String) (getResult : CallResult Dict)
    (trace : List (CallResult ListResp)) (b1 b2 : Bool) :
    get_folder_metadata st folder_id b1 getResult trace =
      get_folder_metadata st folder_id b2 getResult trace := by
  unfold get_folder_metadata
  cases b1 <;> cases b2 <;> rfl

/-- C10: `gdrive_search` with an initialized service issues exactly one
upstream list call, with page size 20 and no continuation token, for
every query and every upstream outcome; on a success page honoring that
page size, the envelope's `results` and `count` reflect at most 20
records. -/
theorem gdrive_search_single_call (st : DriveState) (query : String)
    (r : CallResult ListResp) (hinit : st.driveInit = true) :
    (gdrive_search st query r).2 =
      [UpCall.filesList (searchQuery st query) 20 Option.none] ∧
    (∀ resp : ListResp, r = .ok resp → resp.files.length ≤ 20 →
      ∃ n : Nat, n ≤ 20 ∧
        dictGet (gdrive_search st query r).1 "count" =
          some (.num (n : Rat)) ∧
        ∃ l : List PyVal, l.length = n ∧
          dictGet (gdrive_search st query r).1 "results" =
            some (.list l)) := by
  constructor
  · unfold gdrive_search
    rw [hinit]
    rcases r with f | resp
    · rcases f with e | m <;> rfl
    · rfl
  · rintro resp rfl hlen
    refine ⟨resp.files.length, hlen, ?_, resp.files.map mkDict, by simp, ?_⟩ <;>
      · unfold gdrive_search
        rw [hinit]
        simp [dictGet]

/-- Witness for C10 at a concrete one-file page. -/
theorem gdrive_search_single_call_witness :
    (gdrive_search ⟨true, Option.none⟩ "q"
        (.ok ⟨[[("id", .str "f1")]], some "tok"⟩)).2 =
      [UpCall.filesList (searchQuery ⟨true, Option.none⟩ "q") 20
        Option.none] ∧
    (∃ n : Nat, n ≤ 20 ∧
      dictGet (gdrive_search ⟨true, Option.none⟩ "q"
          (.ok ⟨[[("id", .str "f1")]], some "tok"⟩)).1 "count" =
        some (.num (n : Rat)) ∧
      ∃ l : List PyVal, l.length = n ∧
        dictGet (gdrive_search ⟨true, Option.none⟩ "q"
            (.ok ⟨[[("id", .str "f1")]], some "tok"⟩)).1 "results" =
          some (.list l)) := by
  have h := gdrive_search_single_call ⟨true, Option.none⟩ "q"
    (.ok ⟨[[("id", .str "f1")]], some "tok"⟩) rfl
  exact ⟨h.1, h.2 ⟨[[("id", .str "f1")]], some "tok"⟩ rfl (by simp)⟩

theorem walkPages_http_error (e : HttpErr)
    (rest : List (CallResult ListResp)) (q : String) (ps : Int) :
    ∀ (oks : List ListResp) (token : Option String) (acc : List Dict),
      (∀ p ∈ oks, p.nextPageToken.isSome = true) →
      ∃ calls, walkPages (oks.map Except.ok ++
          Except.error (CallFail.http e) :: rest) q ps token acc =
        (Outcome.errDict (handle_api_error e), calls) := by
  intro oks
  induction oks with
  | nil => intro token acc _; exact ⟨[UpCall.filesList q ps token], rfl⟩
  | cons p t ih =>
    intro token acc hc
    obtain ⟨tok2, htok⟩ := Option.isSome_iff_exists.mp (hc p (by simp))
    obtain ⟨calls, hcalls⟩ := ih (some tok2) (acc ++ p.files)
      (fun x hx => hc x (by simp [hx]))
    refine ⟨UpCall.filesList q ps token :: calls, ?_⟩
    simp only [List.map_cons, List.cons_append, walkPages, htok,
      List.append_eq]
    rw [hcalls]

/-- C1: if any page of the pagination walk fails upstream with an
`HttpError` — after any number of successfully fetched pages — both
`list_files` and `get_folder_metadata` return exactly the classified
error descriptor, which carries none of the accumulated records (no
`files`, `count` or `results` key): the caller never sees a partial
success envelope. -/
theorem pagination_all_or_nothing (st : DriveState) (fid mt : Option String)
    (ps : Int) (tgt : String) (incl : Bool) (finfo : Dict)
    (oks : List ListResp) (e : HttpErr) (rest : List (CallResult ListResp))
    (hinit : st.driveInit = true)
    (hres : resolveFolder fid st.folderEnv = some tgt)
    (hc : ∀ p ∈ oks, p.nextPageToken.isSome = true) :
    (list_files st fid mt ps
        (oks.map .ok ++ .error (.http e) :: rest)).1 = handle_api_error e ∧
    (get_folder_metadata st fid incl (.ok finfo)
        (oks.map .ok ++ .error (.http e) :: rest)).1 = handle_api_error e ∧
    dictGet (handle_api_error e) "files" = Option.none ∧
    dictGet (handle_api_error e) "count" = Option.none ∧
    dictGet (handle_api_error e) "results" = Option.none := by
  refine ⟨?_, ?_, ?_, ?_, ?_⟩
  · obtain ⟨calls, hcalls⟩ := walkPages_http_error e rest
      (listFilesQuery tgt mt) (clampPageSize ps) oks Option.none [] hc
    unfold list_files
    rw [hinit, hres]
    simp only [Bool.not_true, Bool.false_eq_true, if_false]
    rw [hcalls]
  · obtain ⟨calls, hcalls⟩ := walkPages_http_error e rest
      (gfmQuery tgt incl) 100 oks Option.none [] hc
    unfold get_folder_metadata
    rw [hinit, hres]
    simp only [Bool.not_true, Bool.false_eq_true, if_false]
    rw [hcalls]
  · exact handle_api_error_no_records e "files" (by decide) (by decide)
      (by decide) (by decide) (by decide)
  · exact handle_api_error_no_records e "count" (by decide) (by decide)
      (by decide) (by decide) (by decide)
  · exact handle_api_error_no_records e "results" (by decide) (by decide)
      (by decide) (by decide) (by decide)

/-- Witness for C1: one successfully fetched page followed by a 403
failure. -/
theorem pagination_all_or_nothing_witness :
    (list_files ⟨true, some "F"⟩ Option.none Option.none 100
        (([⟨[[("id", PyVal.str "a")]], some "t1"⟩] :
            List ListResp).map .ok ++
          .error (.http ⟨403, "Forbidden", .noMsg, "x"⟩) :: [])).1 =
      handle_api_error ⟨403, "Forbidden", .noMsg, "x"⟩ ∧
    (get_folder_metadata ⟨true, some "F"⟩ Option.none false
        (.ok [("id", PyVal.str "F")])
        (([⟨[[("id", PyVal.str "a")]], some "t1"⟩] :
            List ListResp).map .ok ++
          .error (.http ⟨403, "Forbidden", .noMsg, "x"⟩) :: [])).1 =
      handle_api_error ⟨403, "Forbidden", .noMsg, "x"⟩ ∧
    dictGet (handle_api_error ⟨403, "Forbidden", .noMsg, "x"⟩) "files" =
      Option.none ∧
    dictGet (handle_api_error ⟨403, "Forbidden", .noMsg, "x"⟩) "count" =
      Option.none ∧
    dictGet (handle_api_error ⟨403, "Forbidden", .noMsg, "x"⟩) "results" =
      Option.none :=
  pagination_all_or_nothing ⟨true, some "F"⟩ Option.none Option.none 100 "F"
    false [("id", PyVal.str "F")] [⟨[[("id", PyVal.str "a")]], some "t1"⟩]
    ⟨403, "Forbidden", .noMsg, "x"⟩ [] rfl rfl
    (by intro p hp; rw [List.mem_singleton] at hp; subst hp; rfl)

/-- C4 counterexample: with an uninitialized service,
`create_expense_sheet` returns an "Unexpected error" AttributeError
envelope — not `{error: "service not initialized"}` — because the sheets
handlers have no initialization guard at all (no upstream call is made
either way). -/
theorem create_expense_sheet_uninit_counterexample :
    dictGet (create_expense_sheet ⟨false, Option.none⟩ "n" Option.none
        Option.none Option.none (.ok []) (.ok [])).1 "error" =
      some (.str ("Unexpected error: " ++ sglq ++ "NoneType" ++ sglq ++
        " object has no attribute " ++ sglq ++ "files" ++ sglq)) ∧
    dictGet (create_expense_sheet ⟨false, Option.none⟩ "n" Option.none
        Option.none Option.none (.ok []) (.ok [])).1 "error" ≠
      some (.str "service not initialized") ∧
    (create_expense_sheet ⟨false, Option.none⟩ "n" Option.none Option.none
        Option.none (.ok []) (.ok [])).2 = [] := by
  refine ⟨rfl, ?_, rfl⟩
  intro h
  have h2 := (rfl : dictGet (create_expense_sheet ⟨false, Option.none⟩ "n"
      Option.none Option.none Option.none (.ok []) (.ok [])).1 "error" =
    some (.str ("Unexpected error: " ++ sglq ++ "NoneType" ++ sglq ++
      " object has no attribute " ++ sglq ++ "files" ++ sglq))).symm.trans h
  injection h2 with h3
  injection h3 with h4
  exact absurd h4 (by decide)

/-- C4 amended: when the service dependency is unavailable, the drive
handlers (`list_files`, `create_sheet`, `get_folder_metadata`,
`gdrive_search`, `gdrive_read_file`) return
`{error: "Drive service not initialized"}` immediately with no upstream
call; the sheets handler `create_expense_sheet` has no such guard and
instead surfaces the AttributeError as an "Unexpected error" envelope,
also without an upstream call. -/
theorem service_uninitialized_behavior (st : DriveState)
    (h : st.driveInit = false) (name q fileId : String)
    (fid mt : Option String) (ps : Int) (incl : Bool)
    (cats hdrs : Option (List String)) (trace : List (CallResult ListResp))
    (cr gr br : CallResult Dict) (lr : CallResult ListResp)
    (mr : CallResult (List Nat)) :
    list_files st fid mt ps trace =
      ([("error", .str "Drive service not initialized")], []) ∧
    create_sheet st name fid cr =
      ([("error", .str "Drive service not initialized")], []) ∧
    get_folder_metadata st fid incl gr trace =
      ([("error", .str "Drive service not initialized")], []) ∧
    gdrive_search st q lr =
      ([("error", .str "Drive service not initialized")], []) ∧
    gdrive_read_file st fileId gr mr =
      ([("error", .str "Drive service not initialized")], []) ∧
    create_expense_sheet st name fid cats hdrs cr br =
      ([("error", .str ("Unexpected error: " ++ sglq ++ "NoneType" ++
          sglq ++ " object has no attribute " ++ sglq ++ "files" ++
          sglq))], []) := by
  refine ⟨?_, ?_, ?_, ?_, ?_, ?_⟩ <;>
    simp [list_files, create_sheet, get_folder_metadata, gdrive_search,
      gdrive_read_file, create_expense_sheet, h]

/-- Witness for C4's amended statement at concrete arguments. -/
theorem service_uninitialized_behavior_witness :
    list_files ⟨false, Option.none⟩ Option.none Option.none 100 [] =
      ([("error", .str "Drive service not initialized")], []) ∧
    create_sheet ⟨false, Option.none⟩ "n" Option.none (.ok []) =
      ([("error", .str "Drive service not initialized")], []) ∧
    get_folder_metadata ⟨false, Option.none⟩ Option.none false (.ok []) [] =
      ([("error", .str "Drive service not initialized")], []) ∧
    gdrive_search ⟨false, Option.none⟩ "q" (.ok ⟨[], Option.none⟩) =
      ([("error", .str "Drive service not initialized")], []) ∧
    gdrive_read_file ⟨false, Option.none⟩ "f" (.ok []) (.ok []) =
      ([("error", .str "Drive service not initialized")], []) ∧
    create_expense_sheet ⟨false, Option.none⟩ "n" Option.none Option.none
        Option.none (.ok []) (.ok []) =
      ([("error", .str ("Unexpected error: " ++ sglq ++ "NoneType" ++
          sglq ++ " object has no attribute " ++ sglq ++ "files" ++
          sglq))], []) :=
  service_uninitialized_behavior ⟨false, Option.none⟩ rfl "n" "q" "f"
    Option.none Option.none 100 false Option.none Option.none []
    (.ok []) (.ok []) (.ok []) (.ok ⟨[], Option.none⟩) (.ok [])

/-- C5 counterexample: `gdrive_search` on an upstream 403 `HttpError`
returns a flat `Search failed:` envelope with no `status_code`, no
`suggestion`, and not the classified "Permission denied" error string —
it does not route the failure through the error classifier. -/
theorem gdrive_search_unclassified_counterexample :
    (gdrive_search ⟨true, Option.none⟩ "q"
        (.error (.http ⟨403, "Forbidden", .noMsg, "403 details"⟩))).1 =
      [("error", .str "Search failed: 403 details")] ∧
    dictGet (gdrive_search ⟨true, Option.none⟩ "q"
        (.error (.http ⟨403, "Forbidden", .noMsg, "403 details"⟩))).1
      "status_code" = Option.none ∧
    dictGet (gdrive_search ⟨true, Option.none⟩ "q"
        (.error (.http ⟨403, "Forbidden", .noMsg, "403 details"⟩))).1
      "suggestion" = Option.none ∧
    dictGet (gdrive_search ⟨true, Option.none⟩ "q"
        (.error (.http ⟨403, "Forbidden", .noMsg, "403 details"⟩))).1
      "error" ≠ some (.str "Permission denied") := by
  refine ⟨rfl, rfl, rfl, ?_⟩
  intro h
  have h2 := (rfl : dictGet (gdrive_search ⟨true, Option.none⟩ "q"
      (.error (.http ⟨403, "Forbidden", .noMsg, "403 details"⟩))).1
    "error" = some (.str "Search failed: 403 details")).symm.trans h
  injection h2 with h3
  injection h3 with h4
  exact absurd h4 (by decide)

/-- C5 amended: only the three core-server handlers (`list_files`,
`create_sheet`, `get_folder_metadata`) classify upstream `HttpError`s
through `handle_api_error`; `gdrive_search`, `gdrive_read_file`,
`create_expense_sheet` and `get_expense_summary` return flat
`{error: "<context>: <str(e)>"}` envelopes without classification.  In
every handler a non-HTTP unexpected failure is caught and reported as
`{error: "Unexpected error: <message>"}` — nothing propagates as a
crash. -/
theorem upstream_failure_envelopes (st : DriveState)
    (q fileId name ssid tgt : String) (fid : Option String)
    (cats hdrs : Option (List String)) (e : HttpErr) (m : String)
    (br : CallResult Dict) (mr : CallResult (List Nat))
    (hinit : st.driveInit = true)
    (hres : resolveFolder fid st.folderEnv = some tgt) :
    (gdrive_search st q (.error (.http e))).1 =
      [("error", .str ("Search failed: " ++ e.text))] ∧
    (gdrive_search st q (.error (.other m))).1 =
      [("error", .str ("Unexpected error: " ++ m))] ∧
    (gdrive_read_file st fileId (.error (.http e)) mr).1 =
      [("error", .str ("Failed to read file: " ++ e.text))] ∧
    (gdrive_read_file st fileId (.error (.other m)) mr).1 =
      [("error", .str ("Unexpected error: " ++ m))] ∧
    (create_expense_sheet st name fid cats hdrs (.error (.http e)) br).1 =
      [("error", .str ("Failed to create sheet: " ++ e.text))] ∧
    (create_expense_sheet st name fid cats hdrs (.error (.other m)) br).1 =
      [("error", .str ("Unexpected error: " ++ m))] ∧
    (get_expense_summary ssid Option.none (.error (.http e))).1 =
      [("error", .str ("Failed to get summary: " ++ e.text))] ∧
    (get_expense_summary ssid Option.none (.error (.other m))).1 =
      [("error", .str ("Unexpected error: " ++ m))] ∧
    (create_sheet st name fid (.error (.http e))).1 = handle_api_error e ∧
    (get_folder_metadata st fid false (.error (.http e)) []).1 =
      handle_api_error e ∧
    (get_folder_metadata st fid false (.error (.other m)) []).1 =
      [("error", .str ("Unexpected error: " ++ m))] := by
  refine ⟨?_, ?_, ?_, ?_, ?_, ?_, ?_, ?_, ?_, ?_, ?_⟩ <;>
    simp [gdrive_search, gdrive_read_file, create_expense_sheet,
      get_expense_summary, create_sheet, get_folder_metadata, hinit, hres]

/-- Witness for C5's amended statement at concrete arguments. -/
theorem upstream_failure_envelopes_witness :
    (gdrive_search ⟨true, some "F"⟩ "q"
        (.error (.http ⟨500, "err", .noMsg, "boom"⟩))).1 =
      [("error", .str ("Search failed: " ++ "boom"))] ∧
    (create_sheet ⟨true, some "F"⟩ "n" Option.none
        (.error (.http ⟨500, "err", .noMsg, "boom"⟩))).1 =
      handle_api_error ⟨500, "err", .noMsg, "boom"⟩ := by
  have h := upstream_failure_envelopes ⟨true, some "F"⟩ "q" "f" "n" "s" "F"
    Option.none Option.none Option.none ⟨500, "err", .noMsg, "boom"⟩ "m"
    (.ok []) (.ok []) rfl rfl
  exact ⟨h.1, h.2.2.2.2.2.2.2.2.1⟩

/-- A failure envelope: the `error` key bound to a string. -/
def isErrEnvelope (d : Dict) : Prop :=
  ∃ s, dictGet d "error" = some (.str s)

/-- The operation-specific success shape of `gdrive_search`:
`results` and `count` present, no `error` key. -/
def searchSuccessShape (d : Dict) : Prop :=
  (∃ l, dictGet d "results" = some (.list l)) ∧
  (∃ n, dictGet d "count" = some (.num n)) ∧
  dictGet d "error" = Option.none

/-- The operation-specific success shape of `create_expense_sheet`:
`success: true` and a `sheet` record, no `error` key. -/
def expenseSheetSuccessShape (d : Dict) : Prop :=
  dictGet d "success" = some (.bool true) ∧
  (∃ x, dictGet d "sheet" = some x) ∧
  dictGet d "error" = Option.none

/-- C3 counterexample: a successful `gdrive_search` result has neither an
`ok` key nor an `error` key, so it is not of either literal envelope
shape `{ok: true, ...}` / `{ok: false, error: ...}` the claim
prescribes.  (The actual discriminator is the presence of `error`.) -/
theorem envelope_no_ok_field_counterexample :
    dictGet (gdrive_search ⟨true, Option.none⟩ "q"
        (.ok ⟨[], Option.none⟩)).1 "ok" = Option.none ∧
    dictGet (gdrive_search ⟨true, Option.none⟩ "q"
        (.ok ⟨[], Option.none⟩)).1 "error" = Option.none :=
  ⟨rfl, rfl⟩

/-- C3 amended: every result of `gdrive_search` and
`create_expense_sheet` is exactly one of two shapes — an error envelope
(`error` bound to a string) or the operation-specific success envelope
(which has no `error` key) — never both and never neither; no literal
`ok` discriminator field is emitted. -/
theorem envelope_dichotomy (st : DriveState) (q name : String)
    (fid : Option String) (cats hdrs : Option (List String))
    (lr : CallResult ListResp) (cr br : CallResult Dict) :
    ((isErrEnvelope (gdrive_search st q lr).1 ∧
        ¬searchSuccessShape (gdrive_search st q lr).1) ∨
      (searchSuccessShape (gdrive_search st q lr).1 ∧
        ¬isErrEnvelope (gdrive_search st q lr).1)) ∧
    ((isErrEnvelope (create_expense_sheet st name fid cats hdrs cr br).1 ∧
        ¬expenseSheetSuccessShape
          (create_expense_sheet st name fid cats hdrs cr br).1) ∨
      (expenseSheetSuccessShape
          (create_expense_sheet st name fid cats hdrs cr br).1 ∧
        ¬isErrEnvelope
          (create_expense_sheet st name fid cats hdrs cr br).1)) := by
  constructor
  · rcases st with ⟨di, env⟩
    cases di
    · exact Or.inl (by
        simp [gdrive_search, isErrEnvelope, searchSuccessShape, dictGet])
    · rcases lr with f | resp
      · rcases f with e | m <;>
          exact Or.inl (by
            simp [gdrive_search, isErrEnvelope, searchSuccessShape, dictGet])
      · exact Or.inr (by
          simp [gdrive_search, isErrEnvelope, searchSuccessShape, dictGet])
  · rcases st with ⟨di, env⟩
    cases di
    · exact Or.inl (by
        simp [create_expense_sheet, isErrEnvelope, expenseSheetSuccessShape,
          dictGet])
    · rcases cr with f | sheet_file
      · rcases f with e | m <;>
          exact Or.inl (by
            simp [create_expense_sheet, isErrEnvelope,
              expenseSheetSuccessShape, dictGet])
      · rcases hid : dictGet sheet_file "id" with _ | sid
        · exact Or.inl (by
            simp [create_expense_sheet, hid, isErrEnvelope,
              expenseSheetSuccessShape, dictGet])
        · rcases br with f | batch
          · rcases f with e | m <;>
              exact Or.inl (by
                simp [create_expense_sheet, hid, isErrEnvelope,
                  expenseSheetSuccessShape, dictGet])
          · exact Or.inr (by
              simp [create_expense_sheet, hid, isErrEnvelope,
                expenseSheetSuccessShape, dictGet])

theorem toNat_ofNat_valid (n : Nat) (h : n.isValidChar) :
    (Char.ofNat n).toNat = n := by
  simp [Char.ofNat, h, Char.ofNatAux, Char.toNat, UInt32.toNat,
    BitVec.toNat_ofNatLt]

theorem map_ofNat_toNat (cps : List Nat) (h : ∀ c ∈ cps, c.isValidChar) :
    (cps.map Char.ofNat).map Char.toNat = cps := by
  rw [List.map_map]
  induction cps with
  | nil => rfl
  | cons c t ih =>
    simp only [List.map_cons, Function.comp_apply, List.cons.injEq]
    exact ⟨toNat_ofNat_valid c (h c (List.mem_cons_self c t)),
      ih (fun x hx => h x (List.mem_cons_of_mem c hx))⟩

theorem utf8DecodeCps_cons_eq (b0 : Nat) (rest : List Nat) :
    utf8DecodeCps (b0 :: rest) =
      (if b0 < 0x80 then (utf8DecodeCps rest).map (fun cs => b0 :: cs)
      else if b0 < 0xC2 then Option.none
      else if b0 < 0xE0 then
        match rest with
        | b1 :: rest2 =>
          if 0x80 ≤ b1 ∧ b1 < 0xC0 then
            (utf8DecodeCps rest2).map
              (fun cs => ((b0 - 0xC0) * 64 + (b1 - 0x80)) :: cs)
          else Option.none
        | [] => Option.none
      else if b0 < 0xF0 then
        match rest with
        | b1 :: b2 :: rest3 =>
          if (if b0 = 0xE0 then 0xA0 else 0x80) ≤ b1 ∧
              b1 < (if b0 = 0xED then 0xA0 else 0xC0) ∧
              0x80 ≤ b2 ∧ b2 < 0xC0 then
            (utf8DecodeCps rest3).map
              (fun cs => ((b0 - 0xE0) * 4096 + (b1 - 0x80) * 64 +
                (b2 - 0x80)) :: cs)
          else Option.none
        | _ => Option.none
      else if b0 < 0xF5 then
        match rest with
        | b1 :: b2 :: b3 :: rest4 =>
          if (if b0 = 0xF0 then 0x90 else 0x80) ≤ b1 ∧
              b1 < (if b0 = 0xF4 then 0x90 else 0xC0) ∧
              0x80 ≤ b2 ∧ b2 < 0xC0 ∧ 0x80 ≤ b3 ∧ b3 < 0xC0 then
            (utf8DecodeCps rest4).map
              (fun cs => ((b0 - 0xF0) * 262144 + (b1 - 0x80) * 4096 +
                (b2 - 0x80) * 64 + (b3 - 0x80)) :: cs)
          else Option.none
        | _ => Option.none
      else Option.none) := by
  rcases rest with _ | ⟨b1, _ | ⟨b2, _ | ⟨b3, rest4⟩⟩⟩ <;> rfl

theorem utf8DecodeCps_encode (bs : List Nat) :
    ∀ cps, utf8DecodeCps bs = some cps → utf8EncodeCps cps = bs := by
  induction bs using utf8DecodeCps.induct with
  | case1 =>
    intro cps h
    rw [show utf8DecodeCps [] = some [] from rfl, Option.some.injEq] at h
    subst h; rfl
  | case2 b0 rest hb ih =>
    intro cps h
    rw [utf8DecodeCps_cons_eq, if_pos hb, Option.map_eq_some'] at h
    obtain ⟨cs, hcs, rfl⟩ := h
    simp only [utf8EncodeCps, ih cs hcs, utf8EncodeCp, if_pos hb]
    rfl
  | case3 b0 rest h1 h2 =>
    intro cps h
    rw [utf8DecodeCps_cons_eq, if_neg h1, if_pos h2] at h
    cases h
  | case4 b0 h1 h2 h3 b1 rest2 hcond ih =>
    intro cps h
    rw [utf8DecodeCps_cons_eq, if_neg h1, if_neg h2, if_pos h3] at h
    rw [show (match b1 :: rest2 with
      | b1 :: rest2 =>
        if 0x80 ≤ b1 ∧ b1 < 0xC0 then
          (utf8DecodeCps rest2).map
            (fun cs => ((b0 - 0xC0) * 64 + (b1 - 0x80)) :: cs)
        else Option.none
      | [] => (Option.none : Option (List Nat))) =
      if 0x80 ≤ b1 ∧ b1 < 0xC0 then
        (utf8DecodeCps rest2).map
          (fun cs => ((b0 - 0xC0) * 64 + (b1 - 0x80)) :: cs)
      else Option.none from rfl, if_pos hcond, Option.map_eq_some'] at h
    obtain ⟨cs, hcs, rfl⟩ := h
    obtain ⟨c1, c2⟩ := hcond
    simp only [utf8EncodeCps, ih cs hcs, utf8EncodeCp,
      if_neg (by omega : ¬((b0 - 192) * 64 + (b1 - 128) < 128)),
      if_pos (by omega : (b0 - 192) * 64 + (b1 - 128) < 2048)]
    simp only [List.cons_append, List.nil_append, List.cons.injEq]
    exact ⟨by omega, by omega, trivial⟩
  | case5 b0 h1 h2 h3 b1 rest2 hcond =>
    intro cps h
    rw [utf8DecodeCps_cons_eq, if_neg h1, if_neg h2, if_pos h3] at h
    rw [show (match b1 :: rest2 with
      | b1 :: rest2 =>
        if 0x80 ≤ b1 ∧ b1 < 0xC0 then
          (utf8DecodeCps rest2).map
            (fun cs => ((b0 - 0xC0) * 64 + (b1 - 0x80)) :: cs)
        else Option.none
      | [] => (Option.none : Option (List Nat))) =
      if 0x80 ≤ b1 ∧ b1 < 0xC0 then
        (utf8DecodeCps rest2).map
          (fun cs => ((b0 - 0xC0) * 64 + (b1 - 0x80)) :: cs)
      else Option.none from rfl, if_neg hcond] at h
    cases h
  | case6 b0 h1 h2 h3 =>
    intro cps h
    rw [utf8DecodeCps_cons_eq, if_neg h1, if_neg h2, if_pos h3] at h
    cases h
  | case7 b0 h1 h2 h3 h4 b1 b2 rest3 hcond ih =>
    intro cps h
    rw [utf8DecodeCps_cons_eq, if_neg h1, if_neg h2, if_neg h3,
      if_pos h4] at h
    rw [show (match b1 :: b2 :: rest3 with
      | b1 :: b2 :: rest3 =>
        if (if b0 = 0xE0 then 0xA0 else 0x80) ≤ b1 ∧
            b1 < (if b0 = 0xED then 0xA0 else 0xC0) ∧
            0x80 ≤ b2 ∧ b2 < 0xC0 then
          (utf8DecodeCps rest3).map
            (fun cs => ((b0 - 0xE0) * 4096 + (b1 - 0x80) * 64 +
              (b2 - 0x80)) :: cs)
        else Option.none
      | _ => (Option.none : Option (List Nat))) =
      if (if b0 = 0xE0 then 0xA0 else 0x80) ≤ b1 ∧
          b1 < (if b0 = 0xED then 0xA0 else 0xC0) ∧
          0x80 ≤ b2 ∧ b2 < 0xC0 then
        (utf8DecodeCps rest3).map
          (fun cs => ((b0 - 0xE0) * 4096 + (b1 - 0x80) * 64 +
            (b2 - 0x80)) :: cs)
      else Option.none from rfl, if_pos hcond, Option.map_eq_some'] at h
    obtain ⟨cs, hcs, rfl⟩ := h
    obtain ⟨c1, c2, c3, c4⟩ := hcond
    have e1 : 160 ≤ b1 ∨ ¬b0 = 224 := by
      by_cases hh : b0 = 224
      · rw [if_pos hh] at c1; exact Or.inl c1
      · exact Or.inr hh
    have e2 : 128 ≤ b1 := by
      rcases e1 with hr | hr
      · omega
      · rw [if_neg hr] at c1; omega
    have e3 : b1 < 192 := by
      by_cases hh : b0 = 237
      · rw [if_pos hh] at c2; omega
      · rw [if_neg hh] at c2; omega
    have hlo : ¬((b0 - 224) * 4096 + (b1 - 128) * 64 + (b2 - 128) < 2048) := by
      rcases e1 with hr | hr <;> omega
    simp only [utf8EncodeCps, ih cs hcs, utf8EncodeCp, if_neg (by omega :
        ¬((b0 - 224) * 4096 + (b1 - 128) * 64 + (b2 - 128) < 128)),
      if_neg hlo, if_pos (by omega :
        (b0 - 224) * 4096 + (b1 - 128) * 64 + (b2 - 128) < 65536)]
    simp only [List.cons_append, List.nil_append, List.cons.injEq]
    exact ⟨by omega, by omega, by omega, trivial⟩
  | case8 b0 h1 h2 h3 h4 b1 b2 rest3 hcond =>
    intro cps h
    rw [utf8DecodeCps_cons_eq, if_neg h1, if_neg h2, if_neg h3,
      if_pos h4] at h
    rw [show (match b1 :: b2 :: rest3 with
      | b1 :: b2 :: rest3 =>
        if (if b0 = 0xE0 then 0xA0 else 0x80) ≤ b1 ∧
            b1 < (if b0 = 0xED then 0xA0 else 0xC0) ∧
            0x80 ≤ b2 ∧ b2 < 0xC0 then
          (utf8DecodeCps rest3).map
            (fun cs => ((b0 - 0xE0) * 4096 + (b1 - 0x80) * 64 +
              (b2 - 0x80)) :: cs)
        else Option.none
      | _ => (Option.none : Option (List Nat))) =
      if (if b0 = 0xE0 then 0xA0 else 0x80) ≤ b1 ∧
          b1 < (if b0 = 0xED then 0xA0 else 0xC0) ∧
          0x80 ≤ b2 ∧ b2 < 0xC0 then
        (utf8DecodeCps rest3).map
          (fun cs => ((b0 - 0xE0) * 4096 + (b1 - 0x80) * 64 +
            (b2 - 0x80)) :: cs)
      else Option.none from rfl, if_neg hcond] at h
    cases h
  | case9 b0 rest h1 h2 h3 h4 hshape =>
    intro cps h
    rcases rest with _ | ⟨b1, _ | ⟨b2, rest3⟩⟩
    · rw [utf8DecodeCps_cons_eq, if_neg h1, if_neg h2, if_neg h3,
        if_pos h4] at h
      cases h
    · rw [utf8DecodeCps_cons_eq, if_neg h1, if_neg h2, if_neg h3,
        if_pos h4] at h
      cases h
    · exact absurd rfl (fun hh => hshape b1 b2 rest3 hh)
  | case10 b0 h1 h2 h3 h4 h5 b1 b2 b3 rest4 hcond ih =>
    intro cps h
    rw [utf8DecodeCps_cons_eq, if_neg h1, if_neg h2, if_neg h3, if_neg h4,
      if_pos h5] at h
    rw [show (match b1 :: b2 :: b3 :: rest4 with
      | b1 :: b2 :: b3 :: rest4 =>
        if (if b0 = 0xF0 then 0x90 else 0x80) ≤ b1 ∧
            b1 < (if b0 = 0xF4 then 0x90 else 0xC0) ∧
            0x80 ≤ b2 ∧ b2 < 0xC0 ∧ 0x80 ≤ b3 ∧ b3 < 0xC0 then
          (utf8DecodeCps rest4).map
            (fun cs => ((b0 - 0xF0) * 262144 + (b1 - 0x80) * 4096 +
              (b2 - 0x80) * 64 + (b3 - 0x80)) :: cs)
        else Option.none
      | _ => (Option.none : Option (List Nat))) =
      if (if b0 = 0xF0 then 0x90 else 0x80) ≤ b1 ∧
          b1 < (if b0 = 0xF4 then 0x90 else 0xC0) ∧
          0x80 ≤ b2 ∧ b2 < 0xC0 ∧ 0x80 ≤ b3 ∧ b3 < 0xC0 then
        (utf8DecodeCps rest4).map
          (fun cs => ((b0 - 0xF0) * 262144 + (b1 - 0x80) * 4096 +
            (b2 - 0x80) * 64 + (b3 - 0x80)) :: cs)
      else Option.none from rfl, if_pos hcond, Option.map_eq_some'] at h
    obtain ⟨cs, hcs, rfl⟩ := h
    obtain ⟨c1, c2, c3, c4, c5, c6⟩ := hcond
    have e1 : 144 ≤ b1 ∨ ¬b0 = 240 := by
      by_cases hh : b0 = 240
      · rw [if_pos hh] at c1; exact Or.inl c1
      · exact Or.inr hh
    have e2 : 128 ≤ b1 := by
      rcases e1 with hr | hr
      · omega
      · rw [if_neg hr] at c1; omega
    have e3 : b1 < 192 := by
      by_cases hh : b0 = 244
      · rw [if_pos hh] at c2; omega
      · rw [if_neg hh] at c2; omega
    have hlo : ¬((b0 - 240) * 262144 + (b1 - 128) * 4096 +
        (b2 - 128) * 64 + (b3 - 128) < 65536) := by
      rcases e1 with hr | hr <;> omega
    simp only [utf8EncodeCps, ih cs hcs, utf8EncodeCp, if_neg (by omega :
        ¬((b0 - 240) * 262144 + (b1 - 128) * 4096 + (b2 - 128) * 64 +
          (b3 - 128) < 128)),
      if_neg (by omega : ¬((b0 - 240) * 262144 + (b1 - 128) * 4096 +
        (b2 - 128) * 64 + (b3 - 128) < 2048)), if_neg hlo]
    simp only [List.cons_append, List.nil_append, List.cons.injEq]
    exact ⟨by omega, by omega, by omega, by omega, trivial⟩
  | case11 b0 h1 h2 h3 h4 h5 b1 b2 b3 rest4 hcond =>
    intro cps h
    rw [utf8DecodeCps_cons_eq, if_neg h1, if_neg h2, if_neg h3, if_neg h4,
      if_pos h5] at h
    rw [show (match b1 :: b2 :: b3 :: rest4 with
      | b1 :: b2 :: b3 :: rest4 =>
        if (if b0 = 0xF0 then 0x90 else 0x80) ≤ b1 ∧
            b1 < (if b0 = 0xF4 then 0x90 else 0xC0) ∧
            0x80 ≤ b2 ∧ b2 < 0xC0 ∧ 0x80 ≤ b3 ∧ b3 < 0xC0 then
          (utf8DecodeCps rest4).map
            (fun cs => ((b0 - 0xF0) * 262144 + (b1 - 0x80) * 4096 +
              (b2 - 0x80) * 64 + (b3 - 0x80)) :: cs)
        else Option.none
      | _ => (Option.none : Option (List Nat))) =
      if (if b0 = 0xF0 then 0x90 else 0x80) ≤ b1 ∧
          b1 < (if b0 = 0xF4 then 0x90 else 0xC0) ∧
          0x80 ≤ b2 ∧ b2 < 0xC0 ∧ 0x80 ≤ b3 ∧ b3 < 0xC0 then
        (utf8DecodeCps rest4).map
          (fun cs => ((b0 - 0xF0) * 262144 + (b1 - 0x80) * 4096 +
            (b2 - 0x80) * 64 + (b3 - 0x80)) :: cs)
      else Option.none from rfl, if_neg hcond] at h
    cases h
  | case12 b0 rest h1 h2 h3 h4 h5 hshape =>
    intro cps h
    rcases rest with _ | ⟨b1, _ | ⟨b2, _ | ⟨b3, rest4⟩⟩⟩
    · rw [utf8DecodeCps_cons_eq, if_neg h1, if_neg h2, if_neg h3,
        if_neg h4, if_pos h5] at h
      cases h
    · rw [utf8DecodeCps_cons_eq, if_neg h1, if_neg h2, if_neg h3,
        if_neg h4, if_pos h5] at h
      cases h
    · rw [utf8DecodeCps_cons_eq, if_neg h1, if_neg h2, if_neg h3,
        if_neg h4, if_pos h5] at h
      cases h
    · exact absurd rfl (fun hh => hshape b1 b2 b3 rest4 hh)
  | case13 b0 rest h1 h2 h3 h4 h5 =>
    intro cps h
    rw [utf8DecodeCps_cons_eq, if_neg h1, if_neg h2, if_neg h3, if_neg h4,
      if_neg h5] at h
    cases h

theorem utf8DecodeCps_valid (bs : List Nat) :
    ∀ cps, utf8DecodeCps bs = some cps → ∀ c ∈ cps, c.isValidChar := by
  induction bs using utf8DecodeCps.induct with
  | case1 =>
    intro cps h
    rw [show utf8DecodeCps [] = some [] from rfl, Option.some.injEq] at h
    subst h; intro c hc; cases hc
  | case2 b0 rest hb ih =>
    intro cps h
    rw [utf8DecodeCps_cons_eq, if_pos hb, Option.map_eq_some'] at h
    obtain ⟨cs, hcs, rfl⟩ := h
    refine List.forall_mem_cons.mpr ⟨Or.inl (by omega), ih cs hcs⟩
  | case3 b0 rest h1 h2 =>
    intro cps h
    rw [utf8DecodeCps_cons_eq, if_neg h1, if_pos h2] at h
    cases h
  | case4 b0 h1 h2 h3 b1 rest2 hcond ih =>
    intro cps h
    rw [utf8DecodeCps_cons_eq, if_neg h1, if_neg h2, if_pos h3] at h
    rw [show (match b1 :: rest2 with
      | b1 :: rest2 =>
        if 0x80 ≤ b1 ∧ b1 < 0xC0 then
          (utf8DecodeCps rest2).map
            (fun cs => ((b0 - 0xC0) * 64 + (b1 - 0x80)) :: cs)
        else Option.none
      | [] => (Option.none : Option (List Nat))) =
      if 0x80 ≤ b1 ∧ b1 < 0xC0 then
        (utf8DecodeCps rest2).map
          (fun cs => ((b0 - 0xC0) * 64 + (b1 - 0x80)) :: cs)
      else Option.none from rfl, if_pos hcond, Option.map_eq_some'] at h
    obtain ⟨cs, hcs, rfl⟩ := h
    obtain ⟨c1, c2⟩ := hcond
    refine List.forall_mem_cons.mpr ⟨Or.inl (by omega), ih cs hcs⟩
  | case5 b0 h1 h2 h3 b1 rest2 hcond =>
    intro cps h
    rw [utf8DecodeCps_cons_eq, if_neg h1, if_neg h2, if_pos h3] at h
    rw [show (match b1 :: rest2 with
      | b1 :: rest2 =>
        if 0x80 ≤ b1 ∧ b1 < 0xC0 then
          (utf8DecodeCps rest2).map
            (fun cs => ((b0 - 0xC0) * 64 + (b1 - 0x80)) :: cs)
        else Option.none
      | [] => (Option.none : Option (List Nat))) =
      if 0x80 ≤ b1 ∧ b1 < 0xC0 then
        (utf8DecodeCps rest2).map
          (fun cs => ((b0 - 0xC0) * 64 + (b1 - 0x80)) :: cs)
      else Option.none from rfl, if_neg hcond] at h
    cases h
  | case6 b0 h1 h2 h3 =>
    intro cps h
    rw [utf8DecodeCps_cons_eq, if_neg h1, if_neg h2, if_pos h3] at h
    cases h
  | case7 b0 h1 h2 h3 h4 b1 b2 rest3 hcond ih =>
    intro cps h
    rw [utf8DecodeCps_cons_eq, if_neg h1, if_neg h2, if_neg h3,
      if_pos h4] at h
    rw [show (match b1 :: b2 :: rest3 with
      | b1 :: b2 :: rest3 =>
        if (if b0 = 0xE0 then 0xA0 else 0x80) ≤ b1 ∧
            b1 < (if b0 = 0xED then 0xA0 else 0xC0) ∧
            0x80 ≤ b2 ∧ b2 < 0xC0 then
          (utf8DecodeCps rest3).map
            (fun cs => ((b0 - 0xE0) * 4096 + (b1 - 0x80) * 64 +
              (b2 - 0x80)) :: cs)
        else Option.none
      | _ => (Option.none : Option (List Nat))) =
      if (if b0 = 0xE0 then 0xA0 else 0x80) ≤ b1 ∧
          b1 < (if b0 = 0xED then 0xA0 else 0xC0) ∧
          0x80 ≤ b2 ∧ b2 < 0xC0 then
        (utf8DecodeCps rest3).map
          (fun cs => ((b0 - 0xE0) * 4096 + (b1 - 0x80) * 64 +
            (b2 - 0x80)) :: cs)
      else Option.none from rfl, if_pos hcond, Option.map_eq_some'] at h
    obtain ⟨cs, hcs, rfl⟩ := h
    obtain ⟨c1, c2, c3, c4⟩ := hcond
    refine List.forall_mem_cons.mpr ⟨?_, ih cs hcs⟩
    · unfold Nat.isValidChar
      by_cases h237 : b0 = 237
      · rw [if_pos h237] at c2
        subst h237
        left; omega
      · rw [if_neg h237] at c2
        by_cases h224 : b0 = 224
        · rw [if_pos h224] at c1; subst h224; left; omega
        · rw [if_neg h224] at c1; omega
  | case8 b0 h1 h2 h3 h4 b1 b2 rest3 hcond =>
    intro cps h
    rw [utf8DecodeCps_cons_eq, if_neg h1, if_neg h2, if_neg h3,
      if_pos h4] at h
    rw [show (match b1 :: b2 :: rest3 with
      | b1 :: b2 :: rest3 =>
        if (if b0 = 0xE0 then 0xA0 else 0x80) ≤ b1 ∧
            b1 < (if b0 = 0xED then 0xA0 else 0xC0) ∧
            0x80 ≤ b2 ∧ b2 < 0xC0 then
          (utf8DecodeCps rest3).map
            (fun cs => ((b0 - 0xE0) * 4096 + (b1 - 0x80) * 64 +
              (b2 - 0x80)) :: cs)
        else Option.none
      | _ => (Option.none : Option (List Nat))) =
      if (if b0 = 0xE0 then 0xA0 else 0x80) ≤ b1 ∧
          b1 < (if b0 = 0xED then 0xA0 else 0xC0) ∧
          0x80 ≤ b2 ∧ b2 < 0xC0 then
        (utf8DecodeCps rest3).map
          (fun cs => ((b0 - 0xE0) * 4096 + (b1 - 0x80) * 64 +
            (b2 - 0x80)) :: cs)
      else Option.none from rfl, if_neg hcond] at h
    cases h
  | case9 b0 rest h1 h2 h3 h4 hshape =>
    intro cps h
    rcases rest with _ | ⟨b1, _ | ⟨b2, rest3⟩⟩
    · rw [utf8DecodeCps_cons_eq, if_neg h1, if_neg h2, if_neg h3,
        if_pos h4] at h
      cases h
    · rw [utf8DecodeCps_cons_eq, if_neg h1, if_neg h2, if_neg h3,
        if_pos h4] at h
      cases h
    · exact absurd rfl (fun hh => hshape b1 b2 rest3 hh)
  | case10 b0 h1 h2 h3 h4 h5 b1 b2 b3 rest4 hcond ih =>
    intro cps h
    rw [utf8DecodeCps_cons_eq, if_neg h1, if_neg h2, if_neg h3, if_neg h4,
      if_pos h5] at h
    rw [show (match b1 :: b2 :: b3 :: rest4 with
      | b1 :: b2 :: b3 :: rest4 =>
        if (if b0 = 0xF0 then 0x90 else 0x80) ≤ b1 ∧
            b1 < (if b0 = 0xF4 then 0x90 else 0xC0) ∧
            0x80 ≤ b2 ∧ b2 < 0xC0 ∧ 0x80 ≤ b3 ∧ b3 < 0xC0 then
          (utf8DecodeCps rest4).map
            (fun cs => ((b0 - 0xF0) * 262144 + (b1 - 0x80) * 4096 +
              (b2 - 0x80) * 64 + (b3 - 0x80)) :: cs)
        else Option.none
      | _ => (Option.none : Option (List Nat))) =
      if (if b0 = 0xF0 then 0x90 else 0x80) ≤ b1 ∧
          b1 < (if b0 = 0xF4 then 0x90 else 0xC0) ∧
          0x80 ≤ b2 ∧ b2 < 0xC0 ∧ 0x80 ≤ b3 ∧ b3 < 0xC0 then
        (utf8DecodeCps rest4).map
          (fun cs => ((b0 - 0xF0) * 262144 + (b1 - 0x80) * 4096 +
            (b2 - 0x80) * 64 + (b3 - 0x80)) :: cs)
      else Option.none from rfl, if_pos hcond, Option.map_eq_some'] at h
    obtain ⟨cs, hcs, rfl⟩ := h
    obtain ⟨c1, c2, c3, c4, c5, c6⟩ := hcond
    refine List.forall_mem_cons.mpr ⟨?_, ih cs hcs⟩
    · unfold Nat.isValidChar
      by_cases h240 : b0 = 240
      · rw [if_pos h240] at c1; subst h240
        by_cases h244 : (240 : Nat) = 244
        · omega
        · rw [if_neg h244] at c2; right; omega
      · rw [if_neg h240] at c1
        by_cases h244 : b0 = 244
        · rw [if_pos h244] at c2; subst h244; right; omega
        · rw [if_neg h244] at c2; right; omega
  | case11 b0 h1 h2 h3 h4 h5 b1 b2 b3 rest4 hcond =>
    intro cps h
    rw [utf8DecodeCps_cons_eq, if_neg h1, if_neg h2, if_neg h3, if_neg h4,
      if_pos h5] at h
    rw [show (match b1 :: b2 :: b3 :: rest4 with
      | b1 :: b2 :: b3 :: rest4 =>
        if (if b0 = 0xF0 then 0x90 else 0x80) ≤ b1 ∧
            b1 < (if b0 = 0xF4 then 0x90 else 0xC0) ∧
            0x80 ≤ b2 ∧ b2 < 0xC0 ∧ 0x80 ≤ b3 ∧ b3 < 0xC0 then
          (utf8DecodeCps rest4).map
            (fun cs => ((b0 - 0xF0) * 262144 + (b1 - 0x80) * 4096 +
              (b2 - 0x80) * 64 + (b3 - 0x80)) :: cs)
        else Option.none
      | _ => (Option.none : Option (List Nat))) =
      if (if b0 = 0xF0 then 0x90 else 0x80) ≤ b1 ∧
          b1 < (if b0 = 0xF4 then 0x90 else 0xC0) ∧
          0x80 ≤ b2 ∧ b2 < 0xC0 ∧ 0x80 ≤ b3 ∧ b3 < 0xC0 then
        (utf8DecodeCps rest4).map
          (fun cs => ((b0 - 0xF0) * 262144 + (b1 - 0x80) * 4096 +
            (b2 - 0x80) * 64 + (b3 - 0x80)) :: cs)
      else Option.none from rfl, if_neg hcond] at h
    cases h
  | case12 b0 rest h1 h2 h3 h4 h5 hshape =>
    intro cps h
    rcases rest with _ | ⟨b1, _ | ⟨b2, _ | ⟨b3, rest4⟩⟩⟩
    · rw [utf8DecodeCps_cons_eq, if_neg h1, if_neg h2, if_neg h3,
        if_neg h4, if_pos h5] at h
      cases h
    · rw [utf8DecodeCps_cons_eq, if_neg h1, if_neg h2, if_neg h3,
        if_neg h4, if_pos h5] at h
      cases h
    · rw [utf8DecodeCps_cons_eq, if_neg h1, if_neg h2, if_neg h3,
        if_neg h4, if_pos h5] at h
      cases h
    · exact absurd rfl (fun hh => hshape b1 b2 b3 rest4 hh)
  | case13 b0 rest h1 h2 h3 h4 h5 =>
    intro cps h
    rw [utf8DecodeCps_cons_eq, if_neg h1, if_neg h2, if_neg h3, if_neg h4,
      if_neg h5] at h
    cases h

theorem b64ValCode_b64CharCode : ∀ n, n < 64 →
    b64ValCode (b64CharCode n) = some n := by decide

theorem b64CharCode_ne_61 : ∀ n, n < 64 → b64CharCode n ≠ 61 := by decide

theorem b64CharCode_lt (n : Nat) : b64CharCode n < 128 := by
  unfold b64CharCode
  split_ifs <;> omega

theorem b64EncodeCodes_lt (bs : List Nat) :
    ∀ c ∈ b64EncodeCodes bs, c < 128 := by
  induction bs using b64EncodeCodes.induct with
  | case1 => intro c hc; cases hc
  | case2 b0 =>
    intro c hc
    simp only [b64EncodeCodes, List.mem_cons] at hc
    rcases hc with rfl | rfl | rfl | rfl | h
    · exact b64CharCode_lt _
    · exact b64CharCode_lt _
    · omega
    · omega
    · cases h
  | case3 b0 b1 =>
    intro c hc
    simp only [b64EncodeCodes, List.mem_cons] at hc
    rcases hc with rfl | rfl | rfl | rfl | h
    · exact b64CharCode_lt _
    · exact b64CharCode_lt _
    · exact b64CharCode_lt _
    · omega
    · cases h
  | case4 b0 b1 b2 rest ih =>
    intro c hc
    simp only [b64EncodeCodes, List.mem_cons] at hc
    rcases hc with rfl | rfl | rfl | rfl | h
    · exact b64CharCode_lt _
    · exact b64CharCode_lt _
    · exact b64CharCode_lt _
    · exact b64CharCode_lt _
    · exact ih c h

theorem b64DecodeCodes_cons4 (c0 c1 c2 c3 : Nat) (rest : List Nat) :
    b64DecodeCodes (c0 :: c1 :: c2 :: c3 :: rest) =
      (match b64ValCode c0, b64ValCode c1 with
      | some v0, some v1 =>
        if c2 = 61 ∧ c3 = 61 ∧ rest = [] then
          if v1 % 16 = 0 then some [v0 * 4 + v1 / 16] else Option.none
        else if c3 = 61 ∧ rest = [] then
          match b64ValCode c2 with
          | some v2 =>
            if v2 % 4 = 0 then some [v0 * 4 + v1 / 16, v1 % 16 * 16 + v2 / 4]
            else Option.none
          | Option.none => Option.none
        else
          match b64ValCode c2, b64ValCode c3, b64DecodeCodes rest with
          | some v2, some v3, some bs =>
            some ((v0 * 4 + v1 / 16) :: (v1 % 16 * 16 + v2 / 4) ::
              (v2 % 4 * 64 + v3) :: bs)
          | _, _, _ => Option.none
      | _, _ => Option.none) := rfl

theorem b64DecodeCodes_encode (bs : List Nat) :
    (∀ b ∈ bs, b < 256) → b64DecodeCodes (b64EncodeCodes bs) = some bs := by
  induction bs using b64EncodeCodes.induct with
  | case1 => intro _; rfl
  | case2 b0 =>
    intro hb
    have h0 : b0 < 256 := hb b0 (List.mem_singleton.mpr rfl)
    rw [show b64EncodeCodes [b0] =
        [b64CharCode (b0 / 4), b64CharCode (b0 % 4 * 16), 61, 61] from rfl,
      b64DecodeCodes_cons4,
      b64ValCode_b64CharCode (b0 / 4) (by omega),
      b64ValCode_b64CharCode (b0 % 4 * 16) (by omega)]
    dsimp only
    rw [if_pos ⟨rfl, rfl, rfl⟩,
      if_pos (by omega : (b0 % 4 * 16) % 16 = 0),
      show b0 / 4 * 4 + (b0 % 4 * 16) / 16 = b0 from by omega]
  | case3 b0 b1 =>
    intro hb
    have h0 : b0 < 256 := hb b0 (by simp)
    have h1 : b1 < 256 := hb b1 (by simp)
    rw [show b64EncodeCodes [b0, b1] =
        [b64CharCode (b0 / 4), b64CharCode (b0 % 4 * 16 + b1 / 16),
         b64CharCode (b1 % 16 * 4), 61] from rfl,
      b64DecodeCodes_cons4,
      b64ValCode_b64CharCode (b0 / 4) (by omega),
      b64ValCode_b64CharCode (b0 % 4 * 16 + b1 / 16) (by omega)]
    dsimp only
    rw [if_neg (fun hcon =>
        b64CharCode_ne_61 (b1 % 16 * 4) (by omega) hcon.1),
      if_pos ⟨rfl, rfl⟩,
      b64ValCode_b64CharCode (b1 % 16 * 4) (by omega)]
    dsimp only
    rw [if_pos (by omega : (b1 % 16 * 4) % 4 = 0),
      show b0 / 4 * 4 + (b0 % 4 * 16 + b1 / 16) / 16 = b0 from by omega,
      show (b0 % 4 * 16 + b1 / 16) % 16 * 16 + (b1 % 16 * 4) / 4 = b1
        from by omega]
  | case4 b0 b1 b2 rest ih =>
    intro hb
    have h0 : b0 < 256 := hb b0 (by simp)
    have h1 : b1 < 256 := hb b1 (by simp)
    have h2 : b2 < 256 := hb b2 (by simp)
    have hrest : ∀ b ∈ rest, b < 256 :=
      fun b hbm => hb b (by simp [hbm])
    rw [show b64EncodeCodes (b0 :: b1 :: b2 :: rest) =
        b64CharCode (b0 / 4) :: b64CharCode (b0 % 4 * 16 + b1 / 16) ::
        b64CharCode (b1 % 16 * 4 + b2 / 64) :: b64CharCode (b2 % 64) ::
        b64EncodeCodes rest from rfl,
      b64DecodeCodes_cons4,
      b64ValCode_b64CharCode (b0 / 4) (by omega),
      b64ValCode_b64CharCode (b0 % 4 * 16 + b1 / 16) (by omega)]
    dsimp only
    rw [if_neg (fun hcon =>
        b64CharCode_ne_61 (b1 % 16 * 4 + b2 / 64) (by omega) hcon.1),
      if_neg (fun hcon =>
        b64CharCode_ne_61 (b2 % 64) (by omega) hcon.1),
      b64ValCode_b64CharCode (b1 % 16 * 4 + b2 / 64) (by omega),
      b64ValCode_b64CharCode (b2 % 64) (by omega),
      ih hrest]
    dsimp only
    rw [show b0 / 4 * 4 + (b0 % 4 * 16 + b1 / 16) / 16 = b0 from by omega,
      show (b0 % 4 * 16 + b1 / 16) % 16 * 16 +
        (b1 % 16 * 4 + b2 / 64) / 4 = b1 from by omega,
      show (b1 % 16 * 4 + b2 / 64) % 4 * 64 + b2 % 64 = b2 from by omega]

theorem utf8EncodeString_cpsToString (cps : List Nat)
    (h : ∀ c ∈ cps, c.isValidChar) :
    utf8EncodeString (cpsToString cps) = utf8EncodeCps cps := by
  unfold utf8EncodeString cpsToString
  rw [show (String.mk (cps.map Char.ofNat)).data = cps.map Char.ofNat
      from rfl,
    map_ofNat_toNat cps h]

theorem b64DecodeString_encodeString (bs : List Nat)
    (h : ∀ b ∈ bs, b < 256) :
    b64DecodeString (b64EncodeString bs) = some bs := by
  unfold b64DecodeString b64EncodeString
  rw [show (String.mk ((b64EncodeCodes bs).map Char.ofNat)).data =
      (b64EncodeCodes bs).map Char.ofNat from rfl,
    map_ofNat_toNat (b64EncodeCodes bs) (fun c hc =>
      Or.inl (by have := b64EncodeCodes_lt bs c hc; omega)),
    b64DecodeCodes_encode bs h]

/-- C6: `gdrive_read_file` content normalization.  For a text-like
declared kind (`text/*`, `application/json`, or an exportable Workspace
kind) whose bytes decode as strict UTF-8, the envelope carries
`encoding = "utf-8"` and the decoded text, and re-encoding that text
reproduces the downloaded bytes exactly; in every other case (UTF-8
decode failure, or a non-text kind) the envelope carries
`encoding = "base64"` and base64-decoding the content reproduces the
bytes exactly.  The embedding is a total function: no byte sequence
raises. -/
theorem gdrive_read_file_normalization (st : DriveState) (file_id : String)
    (md : Dict) (mime : String) (bytes : List Nat)
    (hinit : st.driveInit = true)
    (hm : dictGetD md "mimeType" (.str "") = .str mime)
    (hb : ∀ b ∈ bytes, b < 256) :
    (isTextKind mime = true →
      (∀ cps, utf8DecodeCps bytes = some cps →
        dictGet (gdrive_read_file st file_id (.ok md) (.ok bytes)).1
            "encoding" = some (.str "utf-8") ∧
        dictGet (gdrive_read_file st file_id (.ok md) (.ok bytes)).1
            "content" = some (.str (cpsToString cps)) ∧
        utf8EncodeString (cpsToString cps) = bytes) ∧
      (utf8DecodeCps bytes = Option.none →
        dictGet (gdrive_read_file st file_id (.ok md) (.ok bytes)).1
            "encoding" = some (.str "base64") ∧
        dictGet (gdrive_read_file st file_id (.ok md) (.ok bytes)).1
            "content" = some (.str (b64EncodeString bytes)) ∧
        b64DecodeString (b64EncodeString bytes) = some bytes)) ∧
    (isTextKind mime = false →
      dictGet (gdrive_read_file st file_id (.ok md) (.ok bytes)).1
          "encoding" = some (.str "base64") ∧
      dictGet (gdrive_read_file st file_id (.ok md) (.ok bytes)).1
          "content" = some (.str (b64EncodeString bytes)) ∧
      b64DecodeString (b64EncodeString bytes) = some bytes) := by
  refine ⟨fun htext => ⟨fun cps hdec => ?_, fun hdec => ?_⟩,
    fun htext => ?_⟩
  · simp only [gdrive_read_file, hinit, hm, htext, hdec, Bool.not_true,
      Bool.false_eq_true, if_false, if_true]
    refine ⟨rfl, rfl, ?_⟩
    exact (utf8EncodeString_cpsToString cps
      (utf8DecodeCps_valid bytes cps hdec)).trans
      (utf8DecodeCps_encode bytes cps hdec)
  · simp only [gdrive_read_file, hinit, hm, htext, hdec, Bool.not_true,
      Bool.false_eq_true, if_false, if_true]
    refine ⟨rfl, rfl, ?_⟩
    exact b64DecodeString_encodeString bytes hb
  · simp only [gdrive_read_file, hinit, hm, htext, Bool.not_true,
      Bool.false_eq_true, if_false, if_true]
    refine ⟨rfl, rfl, ?_⟩
    exact b64DecodeString_encodeString bytes hb

theorem expenseStep_skip (di ci ai : Nat) (dr : Option String)
    (st : SumState) (row : List PyVal) (hlen : ai < row.length)
    (hfail : pyFloatOfVal (row.get ⟨ai, hlen⟩) = Option.none) :
    expenseStep di ci ai dr st row = st := by
  unfold expenseStep
  rw [dif_pos hlen, hfail]

/-- C7: `get_expense_summary` on the specification's two-row instance
yields `total = 4.50`, `transaction_count = 1` and
`by_category = {"Food & Dining": {amount: 4.50, count: 1}}`; in general a
data row whose amount cell fails numeric parsing contributes to none of
the accumulators (dropping it from the fold leaves the result
unchanged); the Date/Category/Amount columns are resolved by header name
via `headers.index`, falling back to the given positional defaults
(0/2/3 in the handler) when the header is absent. -/
theorem get_expense_summary_skips_bad_amounts :
    (get_expense_summary "S" Option.none (.ok
        [[.str "Date", .str "Description", .str "Category", .str "Amount"],
         [.str "2024-01-01", .str "Coffee", .str "Food & Dining", .num 4.5],
         [.str "2024-01-02", .str "Bus", .str "Transportation",
          .str "bad"]])).1 =
      [("spreadsheet_id", .str "S"),
       ("total", .num 4.5),
       ("by_category", .dict [((.str "Food & Dining" : PyVal),
          mkDict [("amount", .num 4.5), ("count", .num 1)])]),
       ("transaction_count", .num 1),
       ("date_range", PyVal.none)] ∧
    (∀ (di ci ai : Nat) (dr : Option String) (pre post : List (List PyVal))
        (row : List PyVal) (hlen : ai < row.length),
      pyFloatOfVal (row.get ⟨ai, hlen⟩) = Option.none →
      (pre ++ row :: post).foldl (expenseStep di ci ai dr) ⟨0, [], 0⟩ =
        (pre ++ post).foldl (expenseStep di ci ai dr) ⟨0, [], 0⟩) ∧
    (∀ (headers : List PyVal) (hname : String) (d : Nat),
      headers.findIdx? (fun c => pyBeq c (.str hname)) = Option.none →
      idxOrD headers hname d = d) ∧
    (∀ (headers : List PyVal) (hname : String) (d i : Nat),
      headers.findIdx? (fun c => pyBeq c (.str hname)) = some i →
      idxOrD headers hname d = i) := by
  refine ⟨?_, ?_, ?_, ?_⟩
  · have h1 : pyRound2 ((0 : Rat) + 4.5) = 4.5 := by
      norm_num [pyRound2, roundHalfEven]
    have h2 : pyRound2 ((4.5 : Rat)) = 4.5 := by
      norm_num [pyRound2, roundHalfEven]
    have h3 : ((1 : Nat) : Rat) = 1 := by norm_num
    calc (get_expense_summary "S" Option.none (.ok
        [[.str "Date", .str "Description", .str "Category", .str "Amount"],
         [.str "2024-01-01", .str "Coffee", .str "Food & Dining", .num 4.5],
         [.str "2024-01-02", .str "Bus", .str "Transportation",
          .str "bad"]])).1 =
      [("spreadsheet_id", .str "S"),
       ("total", .num (pyRound2 ((0 : Rat) + 4.5))),
       ("by_category", .dict [((.str "Food & Dining" : PyVal),
          mkDict [("amount", .num (pyRound2 (4.5 : Rat))),
                  ("count", .num ((1 : Nat) : Rat))])]),
       ("transaction_count", .num ((1 : Nat) : Rat)),
       ("date_range", PyVal.none)] := rfl
      _ = _ := by rw [h1, h2, h3]
  · intro di ci ai dr pre post row hlen hfail
    rw [List.foldl_append, List.foldl_append, List.foldl_cons,
      expenseStep_skip di ci ai dr _ row hlen hfail]
  · intro headers hname d hnone
    unfold idxOrD
    rw [hnone]
  · intro headers hname d i hsome
    unfold idxOrD
    rw [hsome]

/-- Witness for C7's quantified parts at the specification's instance. -/
theorem get_expense_summary_skips_bad_amounts_witness :
    ((3 : Nat) < ([.str "2024-01-02", .str "Bus", .str "Transportation",
        .str "bad"] : List PyVal).length) ∧
    pyFloatOfVal (([.str "2024-01-02", .str "Bus", .str "Transportation",
        .str "bad"] : List PyVal).get ⟨3, by decide⟩) = Option.none ∧
    ([[.str "2024-01-01", .str "Coffee", .str "Food & Dining", .num 4.5],
      [.str "2024-01-02", .str "Bus", .str "Transportation",
       .str "bad"]] : List (List PyVal)).foldl
        (expenseStep 0 2 3 Option.none) ⟨0, [], 0⟩ =
      ([[.str "2024-01-01", .str "Coffee", .str "Food & Dining",
        .num 4.5]] : List (List PyVal)).foldl
        (expenseStep 0 2 3 Option.none) ⟨0, [], 0⟩ ∧
    idxOrD [] "Date" 0 = 0 := by
  refine ⟨by decide, rfl, ?_, ?_⟩
  · exact (get_expense_summary_skips_bad_amounts.2.1 0 2 3 Option.none
      [[.str "2024-01-01", .str "Coffee", .str "Food & Dining", .num 4.5]]
      [] [.str "2024-01-02", .str "Bus", .str "Transportation", .str "bad"]
      (by decide) rfl)
  · exact get_expense_summary_skips_bad_amounts.2.2.1 [] "Date" 0 rfl

/-- Witness for C6 at a concrete text file whose bytes are valid UTF-8,
plus a concrete binary (non-UTF-8) payload under a non-text kind. -/
theorem gdrive_read_file_normalization_witness :
    isTextKind "text/plain" = true ∧
    utf8DecodeCps [104, 105] = some [104, 105] ∧
    dictGet (gdrive_read_file ⟨true, Option.none⟩ "f"
        (.ok [("mimeType", .str "text/plain"), ("name", .str "a.txt")])
        (.ok [104, 105])).1 "encoding" = some (.str "utf-8") ∧
    dictGet (gdrive_read_file ⟨true, Option.none⟩ "f"
        (.ok [("mimeType", .str "text/plain"), ("name", .str "a.txt")])
        (.ok [104, 105])).1 "content" =
      some (.str (cpsToString [104, 105])) ∧
    utf8EncodeString (cpsToString [104, 105]) = [104, 105] ∧
    isTextKind "image/png" = false ∧
    dictGet (gdrive_read_file ⟨true, Option.none⟩ "g"
        (.ok [("mimeType", .str "image/png")]) (.ok [255, 0])).1
      "encoding" = some (.str "base64") ∧
    b64DecodeString (b64EncodeString [255, 0]) = some [255, 0] := by
  have h := gdrive_read_file_normalization ⟨true, Option.none⟩ "f"
    [("mimeType", .str "text/plain"), ("name", .str "a.txt")] "text/plain"
    [104, 105] rfl rfl (by decide)
  have h2 := (h.1 rfl).1 [104, 105] rfl
  have hbin := gdrive_read_file_normalization ⟨true, Option.none⟩ "g"
    [("mimeType", .str "image/png")] "image/png" [255, 0] rfl rfl
    (by decide)
  have h3 := hbin.2 rfl
  exact ⟨rfl, rfl, h2.1, h2.2.1, h2.2.2, rfl, h3.1, h3.2.2⟩
